import Mathlib

/-!
Verification of the weeb-uploader core against its specification.

The definitions below are a shallow embedding of the TypeScript sources:

* `src/lib/core/ChapterTitleExportResolver.svelte.ts` (dump resolver and the
  rate-limiter chain appended to that file),
* `src/lib/core/GroupMatcher.svelte.ts`,
* `src/lib/core/ChapterDumpApplier.svelte.ts`,
* the duplicate-detection pass of
  `src/lib/components/GuidedComponents/GuidedChapterEditor.svelte`,
* the upload orchestrator (`ChapterUploader`).

Conventions of the embedding:

* TypeScript `string | null` becomes `Option String`; the JavaScript
  expression `x || ''` becomes `Option.getD x ""` and JS string truthiness
  (`if (s)`) becomes `strTruthy`.
* The `SvelteMap` keyed by the string `` `${volume}|${chapter}` `` is
  modelled as an association list keyed by the pair `(volume, chapter)`
  (faithful as long as volume strings do not themselves contain `|`,
  which the CSV columns do not); insertion order of the map is the list
  order, matching `Map.prototype.entries()` iteration order.
* A JS object used as a string-keyed record (`Record<string, ...>`)
  is modelled as an association list with insert-or-update semantics
  (`recSet`), which reproduces `Object.keys` insertion-order behaviour.
* Asynchronous functions carry no concurrency here: every awaited call in
  the sources is a pure data lookup once the CSV is loaded, so they embed
  as plain functions.  The CSV transport (`load`/`ensureLoaded`) is outside
  the embedding; all definitions take the already-loaded data.
-/

namespace WeebUploader

/-- JavaScript string truthiness for a `string | null | undefined` value:
`null`/`undefined` and the empty string are falsy. -/
def strTruthy : Option String → Bool
  | none => false
  | some s => s ≠ ""

/-- Normalisation used throughout `ChapterDumpApplier`: `undefined`, `null`
and the empty string all collapse to `null`. -/
def normTitle : Option String → Option String
  | some "" => none
  | o => o

/-- The JS expression `v || ''` on a `string | null` value. -/
def volStr (v : Option String) : String := v.getD ""

/-! ## Dump resolver data model (`ChapterTitleExportResolver.svelte.ts`) -/

/-- Scanlation group as parsed from the chapter dump CSV: a primary name and
the list of `en` alt-name variants. -/
structure Group where
  primaryName : String
  altNames : List String
deriving DecidableEq, Repr

/-- One row of the chapter dump: a release of `chapter` in `volume` by
`groups`, in `language`, with `title`. -/
structure ChapterInfo where
  volume : String
  chapter : String
  title : String
  groups : List Group
  language : String
deriving DecidableEq, Repr

/-- Association list standing in for a JS `Record<string, string | null>`
(used for `groupTitles`). -/
def TitleRec : Type := List (String × Option String)

instance : DecidableEq TitleRec := by
  unfold TitleRec
  infer_instance

instance : Membership (String × Option String) TitleRec := by
  unfold TitleRec
  infer_instance

instance : Repr TitleRec := by
  unfold TitleRec
  infer_instance

/-- Insert-or-update on a record, preserving first-insertion key order,
exactly as JS property assignment behaves on a plain object. -/
def recSet (m : TitleRec) (k : String) (v : Option String) : TitleRec :=
  match m with
  | [] => [(k, v)]
  | (k₀, v₀) :: rest =>
      if k₀ = k then (k₀, v) :: rest else (k₀, v₀) :: recSet rest k v

/-- Record lookup (`m[k]`), `none` when the key is absent. -/
def recGet (m : TitleRec) (k : String) : Option (Option String) :=
  match m with
  | [] => none
  | (k₀, v₀) :: rest => if k₀ = k then some v₀ else recGet rest k

/-- The JS `k in m` test. -/
def recHasKey (m : TitleRec) (k : String) : Bool :=
  (recGet m k).isSome

/-- `Object.keys` of the record. -/
def recKeys (m : TitleRec) : List String :=
  m.map Prod.fst

/-- Resolved view of one release handed to the change engine: the release's
groups, the primary-name-to-title record, and the ungrouped-title bucket. -/
structure ResolvedChapterInfo where
  groups : List Group
  groupTitles : TitleRec
  ungroupedTitles : List (Option String)
deriving DecidableEq, Repr

/-- Exact, case-sensitive test of `searchString` against the group's primary
name or any alt name (`ChapterTitleExportResolver.groupMatches`). -/
def groupMatches (g : Group) (searchString : String) : Bool :=
  g.primaryName == searchString || g.altNames.any (· == searchString)

/-- Primary name of the first group of `info` matching `groupName`
(`ChapterTitleExportResolver.findGroupPrimaryName`). -/
def findGroupPrimaryName (info : ResolvedChapterInfo) (groupName : String) :
    Option String :=
  (info.groups.find? (fun g => groupMatches g groupName)).map (·.primaryName)

/-- Whitespace test standing in for the characters `String.prototype.trim`
removes. -/
def isJsWhitespace (c : Char) : Bool :=
  c = ' ' ∨ c = '\t' ∨ c = '\n' ∨ c = '\r'

/-- Character-level rendering of `title.trim()` (implemented directly so the
kernel can evaluate it). -/
def jsTrim (s : String) : String :=
  String.mk (((s.toList.dropWhile isJsWhitespace).reverse.dropWhile
    isJsWhitespace).reverse)

/-- The title of a dump row, with blank-after-trim titles collapsed to
`null` (the `title && title.trim() !== ''` pattern in the sources). -/
def rowTitle (ci : ChapterInfo) : Option String :=
  if jsTrim ci.title = "" then none else some ci.title

/-- Conversion of one dump row into a `ResolvedChapterInfo`: grouped rows map
every group's primary name to the row title; ungrouped rows contribute one
entry (possibly `null`) to the ungrouped-title bucket.  This block is
repeated verbatim in every `getChapterInfo*` method of the resolver. -/
def buildResolved (ci : ChapterInfo) : ResolvedChapterInfo :=
  if ci.groups.isEmpty then
    { groups := ci.groups, groupTitles := [], ungroupedTitles := [rowTitle ci] }
  else
    { groups := ci.groups
      groupTitles := ci.groups.foldl (fun m g => recSet m g.primaryName (rowTitle ci)) []
      ungroupedTitles := [] }

/-- The per-series index: insertion-ordered entries keyed by
`(volume, chapter)`, each holding the releases filed under that key. -/
def SeriesMap : Type := List ((String × String) × List ChapterInfo)

instance : DecidableEq SeriesMap := by
  unfold SeriesMap
  infer_instance

/-- First entry stored at `key` (a `SvelteMap.get`; well-formed maps have
distinct keys, see `nodupKeys`). -/
def mapFind (m : SeriesMap) (key : String × String) : Option (List ChapterInfo) :=
  match m with
  | [] => none
  | (k₀, v₀) :: rest => if k₀ = key then some v₀ else mapFind rest key

/-- Well-formedness of a `SeriesMap`: keys are distinct, as guaranteed by the
`has`/`set` discipline of `parseCSV`. -/
def nodupKeys (m : SeriesMap) : Prop :=
  (m.map Prod.fst).Nodup

instance (m : SeriesMap) : Decidable (nodupKeys m) := by
  unfold nodupKeys
  infer_instance

/-- Group filter shared by `getChapterInfoByGroups` and
`getChapterInfoByChapterAndGroups`: with no names only ungrouped rows
qualify, otherwise a row qualifies when some provided name matches one of
its groups. -/
def groupsFilter (groupNames : List String) (ci : ChapterInfo) : Bool :=
  if groupNames.isEmpty then ci.groups.isEmpty
  else groupNames.any (fun n => ci.groups.any (fun g => groupMatches g n))

/-- `ChapterTitleExportResolver.getChapterInfo` on a loaded series map:
look up the `volume|chapter` key, filter by language, return the first row
(regardless of its groups). -/
def getChapterInfo (m : SeriesMap) (volume chapter : Option String)
    (language : String) : Option ResolvedChapterInfo :=
  match mapFind m (volStr volume, volStr chapter) with
  | none => none
  | some infos =>
      if infos.isEmpty then none
      else
        match infos.filter (fun ci => ci.language == language) with
        | [] => none
        | ci :: _ => some (buildResolved ci)

/-- `ChapterTitleExportResolver.getChapterInfoByGroups`: look up the key,
filter by language, return the first row passing the group filter. -/
def getChapterInfoByGroups (m : SeriesMap) (volume chapter : Option String)
    (groupNames : List String) (language : String) : Option ResolvedChapterInfo :=
  match mapFind m (volStr volume, volStr chapter) with
  | none => none
  | some infos =>
      if infos.isEmpty then none
      else
        ((infos.filter (fun ci => ci.language == language)).find?
          (groupsFilter groupNames)).map buildResolved

/-- `ChapterTitleExportResolver.getChapterInfoByChapterAndGroups`: scan all
keys of the series in insertion order, keep those whose chapter component
matches, and inside each filter by language and the group filter; the first
qualifying row is returned together with its key's volume component. -/
def getChapterInfoByChapterAndGroups (m : SeriesMap) (chapter : Option String)
    (groupNames : List String) (language : String) :
    Option (String × ResolvedChapterInfo) :=
  match m with
  | [] => none
  | ((vol, chNum), infos) :: rest =>
      if chNum = volStr chapter then
        match (infos.filter (fun ci => ci.language == language)).find?
            (groupsFilter groupNames) with
        | some ci => some (vol, buildResolved ci)
        | none => getChapterInfoByChapterAndGroups rest chapter groupNames language
      else getChapterInfoByChapterAndGroups rest chapter groupNames language

/-- `ChapterTitleExportResolver.getAllGroups`: every group of every row, in
iteration order, deduplicated by primary name keeping the first occurrence. -/
def getAllGroups (m : SeriesMap) : List Group :=
  (m.flatMap (fun e => e.2.flatMap (fun ci => ci.groups))).foldl
    (fun acc g => if acc.any (fun h => h.primaryName == g.primaryName) then acc
                  else acc ++ [g]) []

/-! ## Rate limiter (`ApiWithRateLimit`, appended to
`ChapterTitleExportResolver.svelte.ts`)

Time is a millisecond counter.  `wait` is the only mutator of a bucket; its
suspension is represented by the returned wake-up instant: the caller resumes
at the returned time, which equals the call time when no sleep happened. -/

/-- Mutable state of one `ApiWithRateLimit` bucket. -/
structure RLState where
  rateLimit : Nat
  rateLimitInterval : Nat
  lastBucketStart : Nat
  requestCount : Nat
deriving DecidableEq, Repr

/-- Constructor state: `lastBucketStart = now`, `requestCount = 0`. -/
def RLState.init (rateLimit intervalMs now : Nat) : RLState :=
  { rateLimit := rateLimit, rateLimitInterval := intervalMs
    lastBucketStart := now, requestCount := 0 }

/-- `ApiWithRateLimit.wait`, entered at instant `now`; returns the updated
bucket and the instant at which the call resolves (equal to `now` unless the
call slept).  Mirrors the three branches of the source: window expired →
reset; count at capacity → sleep until `lastBucketStart + interval`, then
set `lastBucketStart` to the instant captured on entry; otherwise reserve a
slot. -/
def RLState.wait (s : RLState) (now : Nat) : RLState × Nat :=
  if now - s.lastBucketStart > s.rateLimitInterval then
    ({ s with lastBucketStart := now, requestCount := 1 }, now)
  else if s.requestCount ≥ s.rateLimit then
    let wake := now + (s.lastBucketStart + s.rateLimitInterval - now)
    ({ s with lastBucketStart := now, requestCount := 1 }, wake)
  else
    ({ s with requestCount := s.requestCount + 1 }, now)

/-- Folding `wait` over a list of call instants, collecting the wake instant
of every call. -/
def RLState.waitSeq (s : RLState) (times : List Nat) : RLState × List Nat :=
  match times with
  | [] => (s, [])
  | t :: rest =>
      let (s₁, r) := s.wait t
      let (s₂, rs) := s₁.waitSeq rest
      (s₂, r :: rs)

/-! ## Chained rate-limited requests (`RateLimitedRequest`) -/

/-- Classification of a rejection of the wrapped operation: an Axios error
carrying an optional HTTP response status, or any other thrown value. -/
inductive ReqErr where
  | axiosErr (status : Option Nat)
  | otherErr
deriving DecidableEq, Repr

/-- The retry guard of `RateLimitedRequest.execute`:
`error instanceof AxiosError && error.response?.status === 429`. -/
def ReqErr.is429 : ReqErr → Bool
  | .axiosErr (some 429) => true
  | _ => false

/-- Observable events of an `execute` run: waiting on the chain's limiter at
a given position, and invoking the wrapped operation. -/
inductive ChainEv where
  | wait (idx : Nat)
  | invoke
deriving DecidableEq, Repr

/-- Waiting on every limiter of the chain in configured order, threading the
clock: each `wait` resumes at its wake instant before the next limiter is
waited on. -/
def chainWait (limiters : List RLState) (now : Nat) (idx : Nat) :
    List RLState × Nat × List ChainEv :=
  match limiters with
  | [] => ([], now, [])
  | l :: rest =>
      let (l₁, t₁) := l.wait now
      let (rest₁, t₂, evs) := chainWait rest t₁ (idx + 1)
      (l₁ :: rest₁, t₂, ChainEv.wait idx :: evs)

/-- `RateLimitedRequest.execute`, driven by the script of successive outcomes
of the wrapped operation (`outcomes`): wait on every limiter in order, invoke
the operation; on a 429 rejection recurse on the rest of the script, on any
other rejection propagate it.  An exhausted script returns `none` — the
source would still be retrying at that point. -/
def executeChain {α : Type} (outcomes : List (Except ReqErr α))
    (limiters : List RLState) (now : Nat) :
    List ChainEv × List RLState × Nat × Option (Except ReqErr α) :=
  match outcomes with
  | [] => ([], limiters, now, none)
  | o :: rest =>
      let (ls, t, evs) := chainWait limiters now 0
      match o with
      | .ok v => (evs ++ [ChainEv.invoke], ls, t, some (.ok v))
      | .error e =>
          if e.is429 then
            let (evs₂, ls₂, t₂, r) := executeChain rest ls t
            (evs ++ [ChainEv.invoke] ++ evs₂, ls₂, t₂, r)
          else (evs ++ [ChainEv.invoke], ls, t, some (.error e))

/-- Event trace of one attempt round over a chain of `n` limiters. -/
def chainRound (n : Nat) : List ChainEv :=
  (List.range n).map ChainEv.wait ++ [ChainEv.invoke]

/-! ## Group matcher (`GroupMatcher.svelte.ts`) -/

/-- Remote-service group record (`ScanGroup` from `UploadingState`): the
remote identifier and display name, which is all the matcher reads. -/
structure ScanGroup where
  groupId : String
  groupName : String
deriving DecidableEq, Repr

/-- `GroupMatcher.mapCsvGroupsToApiGroups`: for each CSV group (in order),
find the first API group whose name matches the CSV group's primary or alt
names and record `primaryName ↦ groupId`; record insertion is
insert-or-update, as on a `SvelteMap`. -/
def mapCsvGroupsToApiGroups (csvGroups : List Group) (apiGroups : List ScanGroup) :
    TitleRec :=
  csvGroups.foldl
    (fun m cg =>
      match apiGroups.find? (fun ag => groupMatches cg ag.groupName) with
      | some ag => recSet m cg.primaryName (some ag.groupId)
      | none => m) []

/-- Content of the trailing bracketed segment of a string, reproducing the
JS regex `\[([^\]]+)\]$`: the string must end in `]`, the content starts at
the leftmost `[` that has no `]` between it and the final `]`, and must be
non-empty. -/
def lastBracketContent (s : String) : Option String :=
  let cs := s.toList
  match cs.getLast? with
  | some ']' =>
      let body := cs.dropLast
      let seg := (body.reverse.takeWhile (fun c => c ≠ ']')).reverse
      match seg.dropWhile (fun c => c ≠ '[') with
      | '[' :: rest => if rest.isEmpty then none else some (String.mk rest)
      | _ => none
  | _ => none

/-- Replacement of the path-unsafe characters `\ / : *` by `-`, the
JS `replace(/[\\/\\:\\*]/g, '-')` applied to group names. -/
def normalizePathChars (s : String) : String :=
  String.mk (s.toList.map (fun c =>
    if c = '\\' ∨ c = '/' ∨ c = ':' ∨ c = '*' then '-' else c))

/-- `GroupMatcher.groupNameInString`: the trailing bracketed segment must
exist and its content must be **exactly equal** to the normalised primary
name or a normalised alt name.  (The function's own doc comment announces
substring matching; the implementation compares with `===`.) -/
def groupNameInString (g : Group) (searchString : String) : Bool :=
  match lastBracketContent searchString with
  | none => false
  | some content =>
      content == normalizePathChars g.primaryName ||
      g.altNames.any (fun a => content == normalizePathChars a)

/-- `GroupMatcher.matchGroupsToChapter`, reduced to the only field of
`ChapterState` it reads (the chapter's `originalFolderPath`): a falsy path
matches nothing, otherwise keep every group whose name is found by
`groupNameInString`. -/
def matchGroupsToChapter (originalFolderPath : Option String)
    (groups : List Group) : List Group :=
  if strTruthy originalFolderPath then
    groups.filter (fun g => groupNameInString g (volStr originalFolderPath))
  else []

/-- Modelled from the spec: the matching rule claimed by §4.2 — the group's
normalised primary or alt name occurs as a **substring** of the trailing
bracketed segment's content.  Kept side by side with `groupNameInString`
(the code) to exhibit their divergence. -/
def specGroupNameInString (g : Group) (searchString : String) : Bool :=
  match lastBracketContent searchString with
  | none => false
  | some content =>
      let occurs := fun (needle : String) =>
        (content.toList.tails).any (fun t => (needle.toList).isPrefixOf t)
      occurs (normalizePathChars g.primaryName) ||
      g.altNames.any (fun a => occurs (normalizePathChars a))

/-! ## Change engine (`ChapterDumpApplier.svelte.ts`) -/

/-- Warning and failure reasons (`WarningReason`). -/
inductive WarningReason where
  | noGroups
  | noValidGroups
  | noChapterInfo
  | noMatchingGroup
  | volumeMismatch
  | partialGroupMatch
  | titleResolutionNotFound
  | duplicateChapter
deriving DecidableEq, Repr

/-- Status of applying changes to a chapter (`ChangeStatus`). -/
inductive ChangeStatus where
  | success
  | noChanges
  | failed
deriving DecidableEq, Repr

/-- A structured warning: machine-readable reason plus human-readable note. -/
structure Warning where
  reason : WarningReason
  note : String
deriving DecidableEq, Repr

/-- Local chapter record fed to the change engine (`ChapterInput`). -/
structure ChapterInput where
  chapterVolume : Option String
  chapterNumber : Option String
  originalFolderPath : Option String
  groupIds : List String
  currentTitle : Option String
  language : String
deriving DecidableEq, Repr

/-- Outcome of matching a chapter against the dump (`ChapterRelease`): the
release, the volume to compare against (the fallback volume when fallback
was used, the input volume otherwise), and bookkeeping filled in later by
title resolution. -/
structure ChapterRelease where
  release : ResolvedChapterInfo
  volume : Option String
  usedFallback : Bool
  title : Option String
  matchedGroupName : Option String
deriving DecidableEq, Repr

/-- Result of one title-resolution pass (`TitleFromReleaseResult`). -/
structure TitleFromReleaseResult where
  title : Option String
  matchedGroupName : Option String
deriving DecidableEq, Repr

/-- Resolution summary attached to a chapter result
(`TitleResolutionResult`). -/
structure TitleResolutionResult where
  title : Option String
  matchedGroupName : Option String
  usedFallback : Bool
  fallbackVolume : Option String
  chapterInfo : ResolvedChapterInfo
deriving DecidableEq, Repr

/-- Changes staged for a chapter (`ChapterChanges`): the outer `Option`
renders the TS optional field (`none` = field omitted, no change), the inner
one the staged value (`some none` = explicit clear to `null`). -/
structure ChapterChanges where
  volume : Option (Option String)
  title : Option (Option String)
  additionalGroupIds : List String
deriving DecidableEq, Repr

/-- Per-chapter result of `applyChangesFromDump` (`ChapterChangeResult`). -/
structure ChapterChangeResult where
  status : ChangeStatus
  changes : Option ChapterChanges
  warnings : List Warning
  resolutionResult : Option TitleResolutionResult
deriving DecidableEq, Repr

/-- Options of `applyChangesFromDump` (`ApplyChangesOptions`); the optional
`isNoGroupChapter` callback with its `?? false` default is modelled as a
total boolean predicate. -/
structure ApplyChangesOptions where
  useFallbackMatching : Bool
  isNoGroupChapter : ChapterInput → Bool

/-- `Utils.createGroupIdToNameMap` followed by `Map.get`: the last
`ScanGroup` with a given id wins, as repeated `Map.set` overwrites. -/
def groupIdToName (scanGroups : List ScanGroup) (id : String) : Option String :=
  scanGroups.foldl (fun acc g => if g.groupId == id then some g.groupName else acc)
    none

/-- `ReleaseLookup.findReleasesForChapter`: dispatch on whether group names
were provided — with names, the group-filtered lookup; without, the plain
first-language-match lookup. -/
def findReleasesForChapter (m : SeriesMap) (volume chapter : Option String)
    (language : String) (groupNames : List String) : Option ResolvedChapterInfo :=
  if groupNames.length > 0 then
    getChapterInfoByGroups m volume chapter groupNames language
  else
    getChapterInfo m volume chapter language

/-- `ReleaseLookup.matchChapterToRelease` (and the identical reshaping done
by `lookupChapterRelease`): exact match first; if it fails, fallback is
enabled and the chapter number is truthy, the by-chapter fallback; the
result records whether fallback was used and the volume it implies. -/
def lookupChapterRelease (m : SeriesMap) (c : ChapterInput)
    (groupNames : List String) (useFallbackMatching : Bool) :
    Option ChapterRelease :=
  match findReleasesForChapter m c.chapterVolume c.chapterNumber c.language
      groupNames with
  | some release =>
      some { release := release, volume := c.chapterVolume, usedFallback := false
             title := none, matchedGroupName := none }
  | none =>
      if useFallbackMatching ∧ strTruthy c.chapterNumber then
        match getChapterInfoByChapterAndGroups m c.chapterNumber groupNames
            c.language with
        | some (vol, info) =>
            some { release := info, volume := some vol, usedFallback := true
                   title := none, matchedGroupName := none }
        | none => none
      else none

/-- `TitleResolver.resolveTitleFromRelease`: walk the assigned group names in
order and take the first whose primary name appears in the release's
`groupTitles`; if none matched and the chapter is a no-group chapter, use
the first ungrouped title; `null`/empty titles normalise to `null`; the
result is `null` only when neither a group nor a non-null title was found. -/
def resolveTitleFromRelease (release : ResolvedChapterInfo)
    (groupNames : List String) (isNoGroupChapter : Bool) :
    Option TitleFromReleaseResult :=
  let firstMatch := groupNames.findSome? (fun n =>
    match findGroupPrimaryName release n with
    | some p => if p ≠ "" ∧ recHasKey release.groupTitles p then some p else none
    | none => none)
  match firstMatch with
  | some p =>
      some { title := normTitle ((recGet release.groupTitles p).getD none)
             matchedGroupName := some p }
  | none =>
      if isNoGroupChapter ∧ ¬release.ungroupedTitles.isEmpty then
        let t := normTitle (release.ungroupedTitles.headD none)
        if t ≠ none then some { title := t, matchedGroupName := none } else none
      else none

/-- Normalisation of an empty-string volume to `null`
(`releaseVolume === '' ? null : releaseVolume`). -/
def normVolume (v : Option String) : Option String :=
  if v = some "" then none else v

/-- `ChapterFixes.determineVolumeChange`: empty-string release volumes
normalise to `null`; a change is staged only when the normalised new volume
differs from the current one. -/
def determineVolumeChange (currentVolume releaseVolume : Option String) :
    Option (Option String) :=
  if currentVolume ≠ normVolume releaseVolume then some (normVolume releaseVolume)
  else none

/-- `ChapterFixes.determineTitleChange`: both sides normalise `''` to
`null`; a change is staged only when they differ. -/
def determineTitleChange (currentTitle resolvedTitle : Option String) :
    Option (Option String) :=
  let nc := normTitle currentTitle
  let nr := normTitle resolvedTitle
  if nc ≠ nr then some nr else none

/-- `ReleaseLookup.getAllGroupIdsForRelease`: remote ids of all groups of
the release, resolved through the CSV-to-API group mapping of the whole
series; unresolved or falsy ids are dropped. -/
def getAllGroupIdsForRelease (m : SeriesMap) (release : ResolvedChapterInfo)
    (scanGroups : List ScanGroup) : List String :=
  let csvToApi := mapCsvGroupsToApiGroups (getAllGroups m) scanGroups
  (recKeys release.groupTitles).filterMap (fun p =>
    match recGet csvToApi p with
    | some gid => if strTruthy gid then gid else none
    | none => none)

/-- `ChapterFixes.getAdditionalGroupsFromRelease`: when a group was matched
and the release lists more than one group, the ids of the release's groups
not already assigned to the chapter. -/
def getAdditionalGroupsFromRelease (currentGroupIds : List String)
    (m : SeriesMap) (release : ResolvedChapterInfo)
    (scanGroups : List ScanGroup) (matchedGroupName : Option String) :
    List String :=
  if ¬strTruthy matchedGroupName then []
  else if (recKeys release.groupTitles).length > 1 then
    (getAllGroupIdsForRelease m release scanGroups).filter
      (fun gid => ¬currentGroupIds.contains gid)
  else []

/-- Steps 2–3 of `calculateChangesFromRelease`: preliminary title resolution
over the currently assigned names, and the group backfill it licenses when a
group was matched. -/
def preliminaryAdditionalGroups (m : SeriesMap) (c : ChapterInput)
    (rel : ChapterRelease) (scanGroups : List ScanGroup)
    (groupNames : List String) (isNoGroupChapter : Bool) : List String :=
  match resolveTitleFromRelease rel.release groupNames isNoGroupChapter with
  | some t =>
      if strTruthy t.matchedGroupName then
        getAdditionalGroupsFromRelease c.groupIds m rel.release scanGroups
          t.matchedGroupName
      else []
  | none => []

/-- The group-name set used for the final title resolution: names of the
chapter's ids extended with the backfilled ids, falling back to the
original names when none resolves. -/
def finalGroupNamesOf (scanGroups : List ScanGroup) (c : ChapterInput)
    (additionalGroupIds groupNames : List String) : List String :=
  let updatedGroupNames :=
    (c.groupIds ++ additionalGroupIds).filterMap (groupIdToName scanGroups)
  if updatedGroupNames.length > 0 then updatedGroupNames else groupNames

/-- The in-place update of the `ChapterRelease` with the final title
resolution's outcome. -/
def updatedRelease (rel : ChapterRelease)
    (titleResult : Option TitleFromReleaseResult) : ChapterRelease :=
  match titleResult with
  | some t =>
      { rel with title := normTitle ((titleResult.map (·.title)).getD none)
                 matchedGroupName := t.matchedGroupName }
  | none => { rel with title := none, matchedGroupName := none }

/-- `ChapterFixes.calculateChangesFromRelease`: volume change, preliminary
title resolution (to identify the matched group), group backfill, final
title resolution over the enlarged group set, and title change detection.
Returns the staged changes together with the updated `ChapterRelease`
(whose `title`/`matchedGroupName` the source mutates in place). -/
def calculateChangesFromRelease (m : SeriesMap) (c : ChapterInput)
    (rel : ChapterRelease) (scanGroups : List ScanGroup)
    (groupNames : List String) (isNoGroupChapter : Bool) :
    ChapterChanges × ChapterRelease :=
  let volumeChange := determineVolumeChange c.chapterVolume rel.volume
  let additionalGroupIds := preliminaryAdditionalGroups m c rel scanGroups
    groupNames isNoGroupChapter
  let titleResult := resolveTitleFromRelease rel.release
    (finalGroupNamesOf scanGroups c additionalGroupIds groupNames)
    isNoGroupChapter
  let resolvedTitle := normTitle ((titleResult.map (·.title)).getD none)
  let titleChange := determineTitleChange (normTitle c.currentTitle) resolvedTitle
  ({ volume := volumeChange, title := titleChange
     additionalGroupIds := additionalGroupIds }, updatedRelease rel titleResult)

/-- Display form of the original volume in the mismatch note
(`originalVolume ?? 'N/A'`). -/
def displayOriginalVolume (v : Option String) : String := v.getD "N/A"

/-- Display form of the fallback volume in the mismatch note (`''` and
`null` render as `N/A`). -/
def displayNewVolume (v : Option String) : String :=
  match v with
  | none => "N/A"
  | some "" => "N/A"
  | some s => s

/-- Note of the `VOLUME_MISMATCH` warning. -/
def volumeMismatchNote (originalVolume fallbackVolume : Option String) : String :=
  "Changed volume from " ++ displayOriginalVolume originalVolume ++ " to " ++
    displayNewVolume fallbackVolume

/-- Note of the `PARTIAL_GROUP_MATCH` warning. -/
def partialGroupMatchNote (matched : String) (allGroups : List String) : String :=
  "Matched \"" ++ matched ++ "\" but release has " ++ toString allGroups.length ++
    " groups: " ++ String.intercalate ", " allGroups

/-- The `TitleResolutionResult` assembled by `applyChangesFromDump` from the
updated `ChapterRelease` (with the defensive re-normalisation of the
title). -/
def mkResolutionResult (rel' : ChapterRelease) : TitleResolutionResult :=
  { title := normTitle rel'.title
    matchedGroupName := rel'.matchedGroupName
    usedFallback := rel'.usedFallback
    fallbackVolume := if rel'.usedFallback then rel'.volume else none
    chapterInfo := rel'.release }

/-- The warning-generation block of `applyChangesFromDump`: a
`VOLUME_MISMATCH` warning when the fallback was used and implied a non-null
volume, then a `PARTIAL_GROUP_MATCH` warning when a group was matched on a
release listing more than one group. -/
def chapterWarningsOf (originalVolume : Option String)
    (rr : TitleResolutionResult) : List Warning :=
  (if rr.usedFallback ∧ rr.fallbackVolume ≠ none
   then [{ reason := WarningReason.volumeMismatch
           note := volumeMismatchNote originalVolume rr.fallbackVolume }]
   else []) ++
  (if strTruthy rr.matchedGroupName ∧
      (recKeys rr.chapterInfo.groupTitles).length > 1
   then [{ reason := WarningReason.partialGroupMatch
           note := partialGroupMatchNote (volStr rr.matchedGroupName)
             (recKeys rr.chapterInfo.groupTitles) }]
   else [])

/-- Tail of the per-chapter loop of `applyChangesFromDump`, entered once a
release was found: change calculation, warning generation and status
determination. -/
def finishChapter (m : SeriesMap) (scanGroups : List ScanGroup)
    (c : ChapterInput) (chapterIsNoGroup : Bool)
    (assignedGroupNames : List String) (chapterRelease : ChapterRelease) :
    ChapterChangeResult :=
  let changesAndRel := calculateChangesFromRelease m c chapterRelease
    scanGroups assignedGroupNames chapterIsNoGroup
  let changes := changesAndRel.1
  let resolutionResult := mkResolutionResult changesAndRel.2
  let warnings := chapterWarningsOf c.chapterVolume resolutionResult
  let hasChanges := changes.volume ≠ none ∨ changes.title ≠ none ∨
    changes.additionalGroupIds.length > 0
  { status := if hasChanges then ChangeStatus.success else ChangeStatus.noChanges
    changes := some changes
    warnings := warnings
    resolutionResult := some resolutionResult }

/-- Body of the per-chapter loop of `Coordination.applyChangesFromDump`:
group preconditions, release lookup, then `finishChapter`. -/
def processChapter (m : SeriesMap) (scanGroups : List ScanGroup)
    (opts : ApplyChangesOptions) (c : ChapterInput) : ChapterChangeResult :=
  let chapterIsNoGroup := opts.isNoGroupChapter c
  let assignedGroupIds := c.groupIds
  if assignedGroupIds.isEmpty ∧ ¬chapterIsNoGroup then
    { status := ChangeStatus.failed, changes := none
      warnings := [{ reason := WarningReason.noGroups
                     note := "Unable to assign any of the required groups to the chapter" }]
      resolutionResult := none }
  else
    let assignedGroupNames := assignedGroupIds.filterMap (groupIdToName scanGroups)
    if assignedGroupNames.isEmpty ∧ ¬chapterIsNoGroup then
      { status := ChangeStatus.failed, changes := none
        warnings := [{ reason := WarningReason.noValidGroups
                       note := "No valid groups found for assigned group IDs" }]
        resolutionResult := none }
    else
      match lookupChapterRelease m c assignedGroupNames
          opts.useFallbackMatching with
      | none =>
          { status := ChangeStatus.failed, changes := none
            warnings := [{ reason := WarningReason.noChapterInfo
                           note := "Chapter not found in chapter dump" }]
            resolutionResult := none }
      | some chapterRelease =>
          finishChapter m scanGroups c chapterIsNoGroup assignedGroupNames
            chapterRelease

/-- `Coordination.applyChangesFromDump`: per-chapter results in input order
plus the success/failure tallies. -/
structure ApplyChangesResult where
  results : List ChapterChangeResult
  successCount : Nat
  failedCount : Nat
deriving DecidableEq, Repr

/-- The coordination loop over the whole batch. -/
def applyChangesFromDump (m : SeriesMap) (chapters : List ChapterInput)
    (scanGroups : List ScanGroup) (opts : ApplyChangesOptions) :
    ApplyChangesResult :=
  let results := chapters.map (processChapter m scanGroups opts)
  { results := results
    successCount := (results.filter (fun r => r.status ≠ ChangeStatus.failed)).length
    failedCount := (results.filter (fun r => r.status = ChangeStatus.failed)).length }

/-! ## Duplicate detection (`GuidedChapterEditor.svelte`, `checkForDuplicates`)

The aggregate response (`MangaAggregateResponse` in `TargetingState`) types
group ids as strings; the sentinel "No Group" release carries a falsy id,
encoded here as the empty string.  The id-keyed `entries` record is modelled
by its `Object.values` list (the ids are read nowhere). -/

/-- One group of the aggregate response. -/
structure AggregateGroup where
  id : String
  name : String
deriving DecidableEq, Repr

/-- One published release entry; `groups` are indices into the aggregate's
group table. -/
structure AggregateChapterEntry where
  groups : List Nat
deriving DecidableEq, Repr

/-- One published chapter of the aggregate, keyed by volume and chapter. -/
structure AggregateChapter where
  volume : Option String
  chapter : String
  entries : List AggregateChapterEntry
deriving DecidableEq, Repr

/-- The aggregate response consumed by duplicate detection. -/
structure MangaAggregate where
  chapters : List AggregateChapter
  groups : List AggregateGroup
deriving DecidableEq, Repr

/-- The `x || 'none'` key component used on both sides of the lookup. -/
def orNone (v : Option String) : String :=
  if strTruthy v then volStr v else "none"

/-- Key of an aggregate chapter (`` `${volume || 'none'}:${chapter || 'none'}` ``),
modelled as the component pair. -/
def aggKey (ch : AggregateChapter) : String × String :=
  (orNone ch.volume, if ch.chapter ≠ "" then ch.chapter else "none")

/-- The `existingChapters` map: built by `Map.set` over the chapters in
order, so a later chapter with the same key wins. -/
def lookupAggChapter (chapters : List AggregateChapter) (key : String × String) :
    Option AggregateChapter :=
  chapters.foldl (fun acc ch => if aggKey ch = key then some ch else acc) none

/-- The `hasNoGroup` helper: some referenced group is named `No Group` and
has a falsy id. -/
def entryHasNoGroup (agg : MangaAggregate) (groupIndices : List Nat) : Bool :=
  groupIndices.any (fun i =>
    match agg.groups.get? i with
    | some g => g.name == "No Group" && g.id == ""
    | none => false)

/-- The `getGroupIdsFromIndices` helper: the truthy ids of the referenced
groups (the sentinel and out-of-range indices contribute nothing). -/
def entryGroupIds (agg : MangaAggregate) (groupIndices : List Nat) : List String :=
  groupIndices.filterMap (fun i =>
    match agg.groups.get? i with
    | some g => if g.id ≠ "" then some g.id else none
    | none => none)

/-- The `hasMatchingGroup` helper of `checkForDuplicates`: an ungrouped
local chapter matches only sentinel-tagged entries without real group ids;
a sentinel-tagged entry never matches a grouped local chapter; otherwise at
least one group id must be shared. -/
def hasMatchingGroup (uploadingGroupIds entryIds : List String)
    (entryNoGroup : Bool) : Bool :=
  if uploadingGroupIds.isEmpty then entryNoGroup && entryIds.isEmpty
  else if entryNoGroup then false
  else uploadingGroupIds.any (fun id => entryIds.contains id)

/-- Per-chapter core of `checkForDuplicates`: look up the published chapter
at the local chapter's `volume:chapter` key and search its entries for one
with a matching group; the chapter is flagged `DUPLICATE_CHAPTER` exactly
when this returns `true`. -/
def checkDuplicate (agg : MangaAggregate)
    (chapterVolume chapterNumber : Option String) (groupIds : List String) :
    Bool :=
  let key := (orNone chapterVolume, orNone chapterNumber)
  match lookupAggChapter agg.chapters key with
  | none => false
  | some existingChapter =>
      if existingChapter.entries.length > 0 then
        (existingChapter.entries.find? (fun e =>
          hasMatchingGroup groupIds (entryGroupIds agg e.groups)
            (entryHasNoGroup agg e.groups))).isSome
      else false

/-! ## Upload orchestrator (`ChapterUploader`)

`ChapterState` lives in `UploadingState.svelte`, which is not among the
sources; its observable surface is modelled from the spec.

Modelled from the spec: `ChapterState.upload` (missing `UploadingState.svelte`)
attempts the chapter's upload and, per §4.5/§7, its outcome is classified as
success, a 403 denial, a network error (no response received) or any other
failure; the error it records on the chapter is represented by that
classification directly (the source classifies recorded message strings).
One `UploadOutcome` per attempt scripts the environment. -/

/-- Transport-failure classification of §7. -/
inductive ErrClass where
  | err403
  | network
  | other
deriving DecidableEq, Repr

/-- Per-attempt outcome of `ChapterState.upload`. -/
inductive UploadOutcome where
  | ok
  | fail (e : ErrClass)
deriving DecidableEq, Repr

/-- Status of a chapter-upload job (spec §3, `UploadJob`). -/
inductive JobStatus where
  | notStarted
  | uploading
  | completed
  | failed
deriving DecidableEq, Repr

/-- Page of an upload job, with the fields `ChapterUploader` resets. -/
structure PageState where
  status : JobStatus
  progress : ℚ
  error : Option ErrClass
  associatedUploadSessionFileId : Option String
deriving DecidableEq, Repr

/-- Chapter-upload job state, with the fields `ChapterUploader` reads and
resets. -/
structure JobState where
  status : JobStatus
  progress : ℚ
  error : Option ErrClass
  associatedUploadSessionId : Option String
  pages : List PageState
deriving DecidableEq, Repr

/-- Modelled from the spec: the effect of one `ChapterState.upload` attempt
on the job, per the §4.5 classification. -/
def uploadAttempt (c : JobState) (o : UploadOutcome) : JobState :=
  match o with
  | .ok => { c with status := JobStatus.completed, progress := 1, error := none }
  | .fail e => { c with status := JobStatus.failed, error := some e }

/-- `has403Error`: the chapter or one of its pages recorded a 403. -/
def has403Error (c : JobState) : Bool :=
  c.error == some ErrClass.err403 ||
    c.pages.any (fun p => p.error == some ErrClass.err403)

/-- `hasNetworkError`: the chapter or one of its pages recorded a
network-classified error. -/
def hasNetworkError (c : JobState) : Bool :=
  c.error == some ErrClass.network ||
    c.pages.any (fun p => p.error == some ErrClass.network)

/-- The page reset performed before a network retry. -/
def resetPage (p : PageState) : PageState :=
  { p with status := JobStatus.notStarted, progress := 0, error := none
           associatedUploadSessionFileId := none }

/-- The chapter reset performed before a network retry: status, progress,
error, session id and every page. -/
def resetChapterForRetry (c : JobState) : JobState :=
  { c with status := JobStatus.notStarted, progress := 0, error := none
           associatedUploadSessionId := none, pages := c.pages.map resetPage }

/-- Observable events of `uploadChapterWithRetry`. -/
inductive UploadEv where
  | attempt
  | resetForRetry
  | sleep (ms : Nat)
deriving DecidableEq, Repr

/-- `RETRY_DELAYS[attempt - 1] || RETRY_DELAYS[2]`. -/
def retryDelay (attempt : Nat) : Nat :=
  [2000, 5000, 10000].getD (attempt - 1) 10000

/-- `ChapterUploader.uploadChapterWithRetry`, driven by the outcome script:
success returns; a 403 asks the run to stop; a network-classified failure
with `attempt ≤ 3` resets the job (pages included), sleeps the scheduled
delay and retries; anything else — other failures or a network failure after
the third retry — reports a plain failure.  Returns the job state, the
success flag, the `shouldStop` flag and the event trace. -/
def uploadChapterWithRetry (script : List UploadOutcome) (attempt : Nat)
    (c : JobState) : JobState × Bool × Bool × List UploadEv :=
  match script with
  | [] => (c, false, false, [])
  | o :: rest =>
      let c₁ := uploadAttempt c o
      if c₁.status = JobStatus.completed then (c₁, true, false, [UploadEv.attempt])
      else if has403Error c₁ then (c₁, false, true, [UploadEv.attempt])
      else if hasNetworkError c₁ ∧ attempt ≤ 3 then
        let c₂ := resetChapterForRetry c₁
        let d := retryDelay attempt
        let (c₃, succ, stop, evs) := uploadChapterWithRetry rest (attempt + 1) c₂
        (c₃, succ, stop,
          [UploadEv.attempt, UploadEv.resetForRetry, UploadEv.sleep d] ++ evs)
      else (c₁, false, false, [UploadEv.attempt])

/-- Uploader-level run states (`UploaderStatus`). -/
inductive UploaderStatus where
  | notStarted
  | inProgress
  | completed
  | failed
  | paused
  | stopped
deriving DecidableEq, Repr

/-- State of a `ChapterUploader` instance. -/
structure UploaderState where
  chapters : List JobState
  status : UploaderStatus
  progress : ℚ
  error : Option String
  authToken : Option String
deriving DecidableEq, Repr

/-- Final outcome of the chapter loop of `uploadAll`. -/
structure RunResult where
  chapters : List JobState
  status : UploaderStatus
  error : Option String
  progress : ℚ
  traces : List (List UploadEv)
deriving DecidableEq, Repr

/-- The chapter loop of `uploadAll`.  The source first filters out completed
chapters and then mutates the filtered jobs in place; the pure rendering
walks the full list and skips completed jobs, which is observationally the
same.  Intermediate `checkProgress` values are overwritten by every exit
path and are not tracked. -/
def uploadAllGo (pending : List (JobState × List UploadOutcome))
    (done : List JobState) (traces : List (List UploadEv)) : RunResult :=
  match pending with
  | [] =>
      { chapters := done, status := UploaderStatus.completed, error := none
        progress := 1, traces := traces }
  | (c, script) :: rest =>
      if c.status = JobStatus.completed then
        uploadAllGo rest (done ++ [c]) traces
      else
        let (c', succ, stop, evs) := uploadChapterWithRetry script 1 c
        if stop then
          { chapters := done ++ [c'] ++ rest.map Prod.fst
            status := UploaderStatus.stopped
            error := some "403 Forbidden: Access denied. Upload stopped."
            progress := 0, traces := traces ++ [evs] }
        else if ¬succ then
          if hasNetworkError c' then
            { chapters := done ++ [c'] ++ rest.map Prod.fst
              status := UploaderStatus.paused
              error := some "Network error: Upload failed after 3 retry attempts. Upload paused. Please check your connection and resume manually."
              progress := 0, traces := traces ++ [evs] }
          else
            { chapters := done ++ [c'] ++ rest.map Prod.fst
              status := UploaderStatus.failed
              error := some "Failed to upload chapter"
              progress := 0, traces := traces ++ [evs] }
        else uploadAllGo rest (done ++ [c']) (traces ++ [evs])

/-- `ChapterUploader.uploadAll`: guard clauses, best-effort session cleanup
(`sessionOutcome`; a 403 there stops the run, other errors are swallowed),
then the sequential chapter loop.  `scripts` supplies each chapter's attempt
outcomes. -/
def uploadAll (u : UploaderState) (sessionOutcome : Option ErrClass)
    (scripts : List (List UploadOutcome)) : UploaderState × List (List UploadEv) :=
  if u.status = UploaderStatus.inProgress then (u, [])
  else if u.authToken = none then
    ({ u with status := UploaderStatus.failed
              error := some "No authentication token provided", progress := 0 }, [])
  else if u.chapters.isEmpty then
    ({ u with status := UploaderStatus.failed
              error := some "No chapters to upload", progress := 0 }, [])
  else if sessionOutcome = some ErrClass.err403 then
    ({ u with status := UploaderStatus.stopped
              error := some "403 Forbidden: Access denied", progress := 0 }, [])
  else
    let r := uploadAllGo (u.chapters.zip scripts) [] []
    ({ u with chapters := r.chapters, status := r.status, error := r.error
              progress := r.progress }, r.traces)

/-! ## Supporting lemmas -/

theorem find?_eq_head?_filter {α : Type} (p : α → Bool) (l : List α) :
    l.find? p = (l.filter p).head? := by
  induction l with
  | nil => rfl
  | cons a l ih =>
      by_cases h : p a = true
      · rw [List.find?_cons_of_pos _ h, List.filter_cons_of_pos h]
        rfl
      · rw [List.find?_cons_of_neg _ (by simp [h]),
          List.filter_cons_of_neg (by simp [h]), ih]

theorem find?_filter_comm {α : Type} (p q : α → Bool) (l : List α) :
    (l.filter p).find? q = l.find? (fun a => p a && q a) := by
  induction l with
  | nil => rfl
  | cons a l ih =>
      by_cases h : p a = true
      · by_cases h2 : q a = true
        · rw [List.filter_cons_of_pos h, List.find?_cons_of_pos _ h2,
            List.find?_cons_of_pos _ (by simp [h, h2])]
        · rw [List.filter_cons_of_pos h, List.find?_cons_of_neg _ (by simp [h2]),
            List.find?_cons_of_neg _ (by simp [h2]), ih]
      · rw [List.filter_cons_of_neg (by simp [h]),
          List.find?_cons_of_neg _ (by simp [h]), ih]

/-! ## Rate limiter: claims C5 and C10 -/

theorem waitSeq_within_window (ts : List Nat) :
    ∀ (s : RLState),
      (∀ t ∈ ts, s.lastBucketStart ≤ t ∧ t < s.lastBucketStart + s.rateLimitInterval) →
      s.requestCount + ts.length ≤ s.rateLimit →
      (s.waitSeq ts).2 = ts ∧
        (s.waitSeq ts).1 =
          { s with requestCount := s.requestCount + ts.length } := by
  induction ts with
  | nil =>
      intro s _ _
      exact ⟨rfl, by simp [RLState.waitSeq]⟩
  | cons t rest ih =>
      intro s hin hcap
      obtain ⟨hts, htw⟩ := hin t (by simp)
      simp only [List.length_cons] at hcap
      have hnotreset : ¬ (t - s.lastBucketStart > s.rateLimitInterval) := by omega
      have hnotfull : ¬ (s.requestCount ≥ s.rateLimit) := by omega
      have hstep : s.wait t = ({ s with requestCount := s.requestCount + 1 }, t) := by
        unfold RLState.wait
        rw [if_neg hnotreset, if_neg hnotfull]
      have ih' := ih { s with requestCount := s.requestCount + 1 }
        (by intro u hu; simpa using hin u (List.mem_cons_of_mem t hu))
        (by simp; omega)
      simp only [RLState.waitSeq, hstep]
      refine ⟨by simp [ih'.1], ?_⟩
      simp only [ih'.2]
      congr 1
      simp
      omega

/-- C5.  For a fresh bucket of capacity `cap` and interval `interval` whose
window opened at `start`, issuing `cap` calls to `wait()` at instants inside
the window blocks none of them — every call resolves at its own instant —
and one further call made within the same window blocks until
`windowStart + interval` has elapsed: it resolves exactly at
`start + interval`. -/
theorem c5_rate_limiter_window (cap interval start : Nat) (ts : List Nat)
    (t' : Nat) (hlen : ts.length = cap)
    (hts : ∀ t ∈ ts, start ≤ t ∧ t < start + interval)
    (_ht1 : start ≤ t') (ht2 : t' ≤ start + interval) :
    ((RLState.init cap interval start).waitSeq ts).2 = ts ∧
      ((((RLState.init cap interval start).waitSeq ts).1).wait t').2 =
        start + interval := by
  have h0 := waitSeq_within_window ts (RLState.init cap interval start)
    (by intro t ht; simpa [RLState.init] using hts t ht)
    (by simp [RLState.init, hlen])
  refine ⟨h0.1, ?_⟩
  rw [h0.2]
  unfold RLState.wait
  simp only [RLState.init]
  rw [if_neg (by simp; omega), if_pos (by simp [hlen])]
  simp
  omega

/-- Witness for C5: capacity 2, interval 1000ms, window start 0, two calls
at 1ms and 2ms, a third call at 3ms. -/
theorem c5_rate_limiter_window_witness :
    ((RLState.init 2 1000 0).waitSeq [1, 2]).2 = [1, 2] ∧
      ((((RLState.init 2 1000 0).waitSeq [1, 2]).1).wait 3).2 = 0 + 1000 :=
  c5_rate_limiter_window 2 1000 0 [1, 2] 3 (by decide) (by decide) (by decide)
    (by decide)

/-- C10.  When `wait()` blocks (window not expired, count at capacity), the
new `lastBucketStart` is the instant captured when the call entered `wait()`
— before the sleep — while the call itself resolves at
`lastBucketStart + interval`: the freshly opened window is back-dated by
exactly the slept duration `lastBucketStart + interval - now`. -/
theorem c10_blocked_wait_backdates_window (s : RLState) (now : Nat)
    (hcount : s.requestCount ≥ s.rateLimit)
    (hin : now - s.lastBucketStart ≤ s.rateLimitInterval)
    (hord : s.lastBucketStart ≤ now) :
    (s.wait now).1.lastBucketStart = now ∧
      (s.wait now).2 = s.lastBucketStart + s.rateLimitInterval ∧
      (s.wait now).1.lastBucketStart +
          (s.lastBucketStart + s.rateLimitInterval - now) = (s.wait now).2 := by
  have hnotreset : ¬ (now - s.lastBucketStart > s.rateLimitInterval) := by omega
  have hw : s.wait now =
      ({ s with lastBucketStart := now, requestCount := 1 },
        now + (s.lastBucketStart + s.rateLimitInterval - now)) := by
    unfold RLState.wait
    rw [if_neg hnotreset, if_pos hcount]
  rw [hw]
  exact ⟨rfl, by simp; omega, by simp⟩

/-- Witness for C10: a full bucket (2 of 2) whose window opened at 100 with
interval 1000, entered at 600; the new window starts at 600, the call
resolves at 1100, back-dated by the 500ms sleep. -/
theorem c10_blocked_wait_backdates_window_witness :
    (({ rateLimit := 2, rateLimitInterval := 1000, lastBucketStart := 100,
        requestCount := 2 } : RLState).wait 600).1.lastBucketStart = 600 ∧
      (({ rateLimit := 2, rateLimitInterval := 1000, lastBucketStart := 100,
          requestCount := 2 } : RLState).wait 600).2 = 100 + 1000 ∧
      (({ rateLimit := 2, rateLimitInterval := 1000, lastBucketStart := 100,
          requestCount := 2 } : RLState).wait 600).1.lastBucketStart +
          (100 + 1000 - 600) =
        (({ rateLimit := 2, rateLimitInterval := 1000, lastBucketStart := 100,
            requestCount := 2 } : RLState).wait 600).2 :=
  c10_blocked_wait_backdates_window
    { rateLimit := 2, rateLimitInterval := 1000, lastBucketStart := 100,
      requestCount := 2 } 600 (by decide) (by decide) (by decide)

/-! ## Chained request retry: claim C6 -/

theorem chainWait_length (ls : List RLState) : ∀ (now idx : Nat),
    (chainWait ls now idx).1.length = ls.length := by
  induction ls with
  | nil => intro now idx; rfl
  | cons l rest ih =>
      intro now idx
      simp only [chainWait]
      simp [ih]

theorem chainWait_evs (ls : List RLState) : ∀ (now idx : Nat),
    (chainWait ls now idx).2.2 = (List.range' idx ls.length).map ChainEv.wait := by
  induction ls with
  | nil => intro now idx; rfl
  | cons l rest ih =>
      intro now idx
      simp only [chainWait]
      simp [ih, List.range'_succ]

theorem executeChain_ok {α : Type} (v : α) (rest : List (Except ReqErr α))
    (ls : List RLState) (now : Nat) :
    executeChain (Except.ok v :: rest) ls now =
      ((chainWait ls now 0).2.2 ++ [ChainEv.invoke],
        (chainWait ls now 0).1, (chainWait ls now 0).2.1,
        some (Except.ok v)) := rfl

theorem executeChain_err {α : Type} (e : ReqErr) (he : e.is429 = false)
    (rest : List (Except ReqErr α)) (ls : List RLState) (now : Nat) :
    executeChain (Except.error e :: rest) ls now =
      ((chainWait ls now 0).2.2 ++ [ChainEv.invoke],
        (chainWait ls now 0).1, (chainWait ls now 0).2.1,
        some (Except.error e)) := by
  simp [executeChain, he]

theorem executeChain_429 {α : Type} (rest : List (Except ReqErr α))
    (ls : List RLState) (now : Nat) :
    executeChain (Except.error (ReqErr.axiosErr (some 429)) :: rest) ls now =
      ((chainWait ls now 0).2.2 ++ [ChainEv.invoke] ++
          (executeChain rest (chainWait ls now 0).1 (chainWait ls now 0).2.1).1,
        (executeChain rest (chainWait ls now 0).1 (chainWait ls now 0).2.1).2) :=
  rfl

/-- C6.  `RateLimitedRequest.execute` retries exactly on HTTP 429: however
many consecutive 429 rejections the operation produces (`n` is universally
quantified — no attempt bound), the run eventually returns the first success,
and its event trace is `n + 1` identical rounds, each waiting on **every**
limiter of the chain in configured order before the single invocation — no
other delay event exists between attempts (no extra backoff).  A rejection
that is not an Axios 429 is propagated to the caller after a single round,
whatever outcomes would have followed. -/
theorem c6_execute_retries_429_unboundedly {α : Type} :
    (∀ (n : Nat) (v : α) (ls : List RLState) (now : Nat),
      (executeChain (List.replicate n (Except.error (ReqErr.axiosErr (some 429)))
          ++ [Except.ok v]) ls now).2.2.2 = some (Except.ok v) ∧
        (executeChain (List.replicate n (Except.error (ReqErr.axiosErr (some 429)))
            ++ [Except.ok v]) ls now).1 =
          (List.replicate (n + 1) (chainRound ls.length)).flatten) ∧
    (∀ (e : ReqErr), e.is429 = false →
      ∀ (rest : List (Except ReqErr α)) (ls : List RLState) (now : Nat),
        (executeChain (Except.error e :: rest) ls now).2.2.2 =
            some (Except.error e) ∧
          (executeChain (Except.error e :: rest) ls now).1 =
            chainRound ls.length) := by
  constructor
  · intro n
    induction n with
    | zero =>
        intro v ls now
        simp [executeChain_ok, chainRound, chainWait_evs, List.range_eq_range']
    | succ n ih =>
        intro v ls now
        simp only [List.replicate_succ, List.cons_append, executeChain_429]
        have ihx := ih v (chainWait ls now 0).1 (chainWait ls now 0).2.1
        rw [chainWait_length] at ihx
        refine ⟨by simp [ihx.1], ?_⟩
        simp only [ihx.2]
        simp [chainRound, chainWait_evs, List.range_eq_range',
          List.replicate_succ, List.flatten_cons]
  · intro e he rest ls now
    simp [executeChain_err e he, chainRound, chainWait_evs, List.range_eq_range']

/-- Witness for C6: two 429 rejections then a success over a one-limiter
chain (three full rounds), and a non-429 Axios 500 propagated after one
round. -/
theorem c6_execute_retries_429_unboundedly_witness :
    ((executeChain (List.replicate 2 (Except.error (ReqErr.axiosErr (some 429)))
        ++ [Except.ok (7 : Nat)]) [RLState.init 3 1000 0] 0).2.2.2 =
      some (Except.ok 7)) ∧
    ((executeChain (List.replicate 2 (Except.error (ReqErr.axiosErr (some 429)))
        ++ [Except.ok (7 : Nat)]) [RLState.init 3 1000 0] 0).1 =
      (List.replicate 3 (chainRound 1)).flatten) ∧
    ((executeChain ([Except.error (ReqErr.axiosErr (some 500))] :
          List (Except ReqErr Nat))
        [RLState.init 3 1000 0] 0).2.2.2 =
      some (Except.error (ReqErr.axiosErr (some 500) : ReqErr))) :=
  ⟨((c6_execute_retries_429_unboundedly (α := Nat)).1 2 7
      [RLState.init 3 1000 0] 0).1,
    by
      have h := ((c6_execute_retries_429_unboundedly (α := Nat)).1 2 7
        [RLState.init 3 1000 0] 0).2
      simpa using h,
    ((c6_execute_retries_429_unboundedly (α := Nat)).2
      (ReqErr.axiosErr (some 500)) (by decide) [] [RLState.init 3 1000 0] 0).1⟩

/-! ## Path-based group matching: claim C9 -/

/-- Fixed test group for the path-matching evaluation. -/
def gFoo : Group := { primaryName := "Foo", altNames := [] }

/-- C9.  The claim (and the function's own doc comment) describe a
**substring** match of the normalised group name inside the trailing
bracketed segment, but `groupNameInString` compares the bracket content
with `===`: on the path `chapters/[Foo Bar]` the group `Foo` occurs as a
substring of the bracket content (the spec-side predicate returns `true`)
while the code returns `false` and `matchGroupsToChapter` matches no group;
only the exactly-equal bracket `chapters/[Foo]` matches. -/
theorem c9_group_path_match_exact_equality :
    groupNameInString gFoo "chapters/[Foo Bar]" = false ∧
    specGroupNameInString gFoo "chapters/[Foo Bar]" = true ∧
    matchGroupsToChapter (some "chapters/[Foo Bar]") [gFoo] = [] ∧
    groupNameInString gFoo "chapters/[Foo]" = true :=
  ⟨rfl, rfl, rfl, rfl⟩

/-! ## Duplicate detection: claim C7 -/

/-- The claim's matching rule for one published entry against a local
chapter, stated propositionally: an ungrouped local chapter requires the
sentinel with no real group ids, a grouped one requires a sentinel-free
entry sharing at least one group id. -/
def specEntryMatches (agg : MangaAggregate) (groupIds : List String)
    (e : AggregateChapterEntry) : Prop :=
  if groupIds = [] then
    entryHasNoGroup agg e.groups = true ∧ entryGroupIds agg e.groups = []
  else
    entryHasNoGroup agg e.groups = false ∧
      ∃ g ∈ groupIds, g ∈ entryGroupIds agg e.groups

theorem hasMatchingGroup_spec (agg : MangaAggregate) (gids : List String)
    (e : AggregateChapterEntry) :
    hasMatchingGroup gids (entryGroupIds agg e.groups)
        (entryHasNoGroup agg e.groups) = true ↔
      specEntryMatches agg gids e := by
  unfold hasMatchingGroup specEntryMatches
  by_cases hg : gids = []
  · subst hg
    simp [List.isEmpty_iff]
  · have hne : gids.isEmpty = false := by
      cases gids with
      | nil => exact absurd rfl hg
      | cons a l => rfl
    rw [if_neg hg]
    simp only [hne, Bool.false_eq_true, if_false]
    cases hng : entryHasNoGroup agg e.groups with
    | true => simp
    | false =>
        simp [List.any_eq_true]

/-- C7.  A local chapter is flagged `DUPLICATE_CHAPTER` iff some published
entry at its `volume:chapter` key matches it under the claim's rule: shared
group id for grouped chapters, with the sentinel special case — an
ungrouped local chapter matches only entries tagged with the `No Group`
sentinel and carrying no real group id, and a sentinel-tagged entry never
matches a local chapter that has groups. -/
theorem c7_duplicate_detection_iff (agg : MangaAggregate)
    (v n : Option String) (gids : List String) :
    checkDuplicate agg v n gids = true ↔
      ∃ ec, lookupAggChapter agg.chapters (orNone v, orNone n) = some ec ∧
        ∃ e ∈ ec.entries, specEntryMatches agg gids e := by
  unfold checkDuplicate
  cases h : lookupAggChapter agg.chapters (orNone v, orNone n) with
  | none => simp [h]
  | some ec =>
      simp only [h]
      by_cases hlen : ec.entries.length > 0
      · rw [if_pos hlen]
        rw [List.find?_isSome]
        constructor
        · rintro ⟨e, he, hp⟩
          exact ⟨ec, rfl, e, he, (hasMatchingGroup_spec agg gids e).mp hp⟩
        · rintro ⟨ec2, hec2, e, he, hp⟩
          obtain rfl := Option.some.inj hec2
          exact ⟨e, he, (hasMatchingGroup_spec agg gids e).mpr hp⟩
      · rw [if_neg hlen]
        have : ec.entries = [] := by
          cases hx : ec.entries with
          | nil => rfl
          | cons a l => rw [hx] at hlen; simp at hlen
        simp [this]

/-! ## Exact-match lookup: claim C8 -/

/-- Qualification of one stored row under the **amended** reading of the
exact-match query: the language must match and, when group names were
provided, some provided name must match one of the row's groups — with an
**empty** name list every language-matching row qualifies (no ungrouped
restriction). -/
def exactQualifies (groupNames : List String) (language : String)
    (ci : ChapterInfo) : Bool :=
  ci.language == language && (groupNames.isEmpty || groupsFilter groupNames ci)

/-- Characterisation of the exact-match dispatch as a single first-match
query over the key's rows. -/
theorem findReleases_first_qualifying (m : SeriesMap)
    (vol ch : Option String) (lang : String) (names : List String) :
    findReleasesForChapter m vol ch lang names =
      (((mapFind m (volStr vol, volStr ch)).getD []).find?
        (exactQualifies names lang)).map buildResolved := by
  unfold findReleasesForChapter
  by_cases hn : names.length > 0
  · rw [if_pos hn]
    have hne : names.isEmpty = false := by
      cases names with
      | nil => simp at hn
      | cons a l => rfl
    unfold getChapterInfoByGroups
    cases hm : mapFind m (volStr vol, volStr ch) with
    | none => simp
    | some infos =>
        simp only [Option.getD_some]
        by_cases he : infos.isEmpty
        · rw [if_pos he]
          rw [List.isEmpty_iff.mp he]
          simp
        · rw [if_neg he]
          rw [find?_filter_comm]
          have : (fun ci => (ci.language == lang) && groupsFilter names ci) =
              exactQualifies names lang := by
            funext ci
            simp [exactQualifies, hne]
          rw [this]
  · rw [if_neg hn]
    have hnil : names = [] := by
      cases names with
      | nil => rfl
      | cons a l => simp at hn
    subst hnil
    unfold getChapterInfo
    cases hm : mapFind m (volStr vol, volStr ch) with
    | none => simp
    | some infos =>
        simp only [Option.getD_some]
        by_cases he : infos.isEmpty
        · rw [if_pos he]
          rw [List.isEmpty_iff.mp he]
          simp
        · rw [if_neg he]
          have hq : exactQualifies [] lang = (fun ci => ci.language == lang) := by
            funext ci
            simp [exactQualifies]
          rw [hq, find?_eq_head?_filter]
          cases hf : infos.filter (fun ci => ci.language == lang) with
          | nil => simp
          | cons ci rest => simp

/-- C8 (amended).  The exact-match dispatch `findReleasesForChapter` returns
the first row stored at the `volume|chapter` key that qualifies under
`exactQualifies`, or `null` when none does.  With a non-empty group-name
list this is the claimed language-then-group filter; with an empty list the
first language-matching row is returned **regardless of its group set** —
the original claim's empty-list/ungrouped restriction belongs to
`getChapterInfoByGroups`, which this code path never uses with an empty
list. -/
theorem c8_exact_match_first_qualifying (m : SeriesMap)
    (vol ch : Option String) (lang : String) (names : List String) :
    findReleasesForChapter m vol ch lang names =
      (((mapFind m (volStr vol, volStr ch)).getD []).find?
        (exactQualifies names lang)).map buildResolved :=
  findReleases_first_qualifying m vol ch lang names

/-- Grouped row used to refute the original C8 reading. -/
def c8Entry : ChapterInfo :=
  { volume := "1", chapter := "5", title := "T",
    groups := [{ primaryName := "G", altNames := [] }], language := "en" }

/-- One-key series map holding only the grouped row. -/
def c8Map : SeriesMap := [(("1", "5"), [c8Entry])]

/-- Counterexample to C8 as stated: with an **empty** group-name list the
claim demands that only ungrouped rows qualify — here the sole row at the
key is grouped, so the claimed query returns `null` — yet the code returns
that grouped row. -/
theorem c8_exact_match_counterexample :
    findReleasesForChapter c8Map (some "1") (some "5") "en" [] =
        some (buildResolved c8Entry) ∧
      (buildResolved c8Entry).groups ≠ [] :=
  ⟨rfl, by decide⟩

/-! ## Change-engine lemmas (claims C1, C2, C3) -/

theorem mapFind_mem_keys (m : SeriesMap) (k : String × String)
    (v : List ChapterInfo) (h : mapFind m k = some v) : k ∈ m.map Prod.fst := by
  induction m with
  | nil => simp [mapFind] at h
  | cons e rest ih =>
      unfold mapFind at h
      by_cases hk : e.1 = k
      · simp [hk]
      · rw [if_neg (by exact fun hx => hk (by cases e; exact hx))] at h
        · simp [ih h]

/-- Whatever the by-chapter fallback returns was stored, unchanged, at the
key made of the returned volume and the requested chapter, and qualified
there under the very language/group filter the exact lookup applies. -/
theorem fallback_found_at_key (m : SeriesMap) (ch : Option String)
    (names : List String) (lang : String) :
    ∀ (v : String) (i : ResolvedChapterInfo), nodupKeys m →
      getChapterInfoByChapterAndGroups m ch names lang = some (v, i) →
      ∃ infos ci, mapFind m (v, volStr ch) = some infos ∧
        (infos.filter (fun x => x.language == lang)).find?
          (groupsFilter names) = some ci ∧
        i = buildResolved ci := by
  induction m with
  | nil => intro v i _ h; simp [getChapterInfoByChapterAndGroups] at h
  | cons e rest ih =>
      intro v i hnd h
      obtain ⟨⟨vol, chNum⟩, infos⟩ := e
      unfold getChapterInfoByChapterAndGroups at h
      have hnd' : nodupKeys rest := by
        unfold nodupKeys at hnd ⊢
        simp only [List.map_cons, List.nodup_cons] at hnd
        exact hnd.2
      by_cases hch : chNum = volStr ch
      · rw [if_pos hch] at h
        cases hf : (infos.filter (fun x => x.language == lang)).find?
            (groupsFilter names) with
        | some ci =>
            rw [hf] at h
            obtain ⟨h1, h2⟩ : vol = v ∧ buildResolved ci = i := by
              have := Option.some.inj h
              exact ⟨congrArg Prod.fst this, congrArg Prod.snd this⟩
            subst h1
            refine ⟨infos, ci, ?_, hf, h2.symm⟩
            unfold mapFind
            rw [if_pos (by rw [hch])]
        | none =>
            rw [hf] at h
            obtain ⟨infos2, ci2, hm, hfind, hi⟩ := ih v i hnd' h
            refine ⟨infos2, ci2, ?_, hfind, hi⟩
            unfold mapFind
            rw [if_neg ?_]
            · exact hm
            · intro hkey
              have hkeys : (v, volStr ch) ∈ rest.map Prod.fst :=
                mapFind_mem_keys rest _ _ hm
              unfold nodupKeys at hnd
              simp only [List.map_cons, List.nodup_cons] at hnd
              exact hnd.1 (by rw [hkey]; exact hkeys)
      · rw [if_neg hch] at h
        obtain ⟨infos2, ci2, hm, hfind, hi⟩ := ih v i hnd' h
        refine ⟨infos2, ci2, ?_, hfind, hi⟩
        unfold mapFind
        rw [if_neg ?_]
        · exact hm
        · intro hkey
          apply hch
          have := congrArg Prod.snd hkey
          simpa using this

/-- When the exact match failed but the fallback found a release, the
fallback's implied volume necessarily differs from the queried volume:
otherwise the same row would have qualified for the exact match. -/
theorem exact_none_fallback_ne (m : SeriesMap) (vol ch : Option String)
    (lang : String) (names : List String) (v : String)
    (i : ResolvedChapterInfo) (hnd : nodupKeys m)
    (hex : findReleasesForChapter m vol ch lang names = none)
    (hfb : getChapterInfoByChapterAndGroups m ch names lang = some (v, i)) :
    v ≠ volStr vol := by
  intro hv
  subst hv
  obtain ⟨infos, ci, hm, hfind, _⟩ := fallback_found_at_key m ch names lang _ i
    hnd hfb
  rw [findReleases_first_qualifying, hm, Option.getD_some,
    Option.map_eq_none'] at hex
  rw [find?_filter_comm] at hfind
  have hmem := List.mem_of_find?_eq_some hfind
  have hp := List.find?_some hfind
  simp only [Bool.and_eq_true] at hp
  have := List.find?_eq_none.mp hex ci hmem
  apply this
  unfold exactQualifies
  simp [hp.1, hp.2]

theorem lookup_fallback_inv (m : SeriesMap) (c : ChapterInput)
    (names : List String) (fb : Bool) (rel : ChapterRelease)
    (h : lookupChapterRelease m c names fb = some rel)
    (huf : rel.usedFallback = true) :
    findReleasesForChapter m c.chapterVolume c.chapterNumber c.language
        names = none ∧
      fb = true ∧ strTruthy c.chapterNumber = true ∧
      ∃ v info,
        getChapterInfoByChapterAndGroups m c.chapterNumber names
            c.language = some (v, info) ∧
          rel.volume = some v ∧ rel.release = info := by
  unfold lookupChapterRelease at h
  cases hex : findReleasesForChapter m c.chapterVolume c.chapterNumber
      c.language names with
  | some r =>
      rw [hex] at h
      obtain rfl := Option.some.inj h
      simp at huf
  | none =>
      rw [hex] at h
      by_cases hc : fb = true ∧ strTruthy c.chapterNumber = true
      · rw [if_pos (by simpa using hc)] at h
        cases hfb : getChapterInfoByChapterAndGroups m c.chapterNumber names
            c.language with
        | some p =>
            obtain ⟨v, info⟩ := p
            rw [hfb] at h
            obtain rfl := Option.some.inj h
            exact ⟨rfl, hc.1, hc.2, v, info, rfl, rfl, rfl⟩
        | none => rw [hfb] at h; exact absurd h (by simp)
      · rw [if_neg (by simpa using hc)] at h
        exact absurd h (by simp)

theorem lookup_exact_inv (m : SeriesMap) (c : ChapterInput)
    (names : List String) (fb : Bool) (rel : ChapterRelease)
    (h : lookupChapterRelease m c names fb = some rel)
    (huf : rel.usedFallback = false) :
    findReleasesForChapter m c.chapterVolume c.chapterNumber c.language
        names = some rel.release ∧ rel.volume = c.chapterVolume := by
  unfold lookupChapterRelease at h
  cases hex : findReleasesForChapter m c.chapterVolume c.chapterNumber
      c.language names with
  | some r =>
      rw [hex] at h
      obtain rfl := Option.some.inj h
      exact ⟨rfl, rfl⟩
  | none =>
      rw [hex] at h
      by_cases hc : fb ∧ strTruthy c.chapterNumber
      · rw [if_pos hc] at h
        cases hfb : getChapterInfoByChapterAndGroups m c.chapterNumber names
            c.language with
        | some p =>
            obtain ⟨v, info⟩ := p
            rw [hfb] at h
            obtain rfl := Option.some.inj h
            simp at huf
        | none => rw [hfb] at h; exact absurd h (by simp)
      · rw [if_neg hc] at h
        exact absurd h (by simp)

/-- Assembling the fallback `ChapterRelease` when the exact match failed and
the fallback succeeded. -/
theorem lookup_fallback_eq (m : SeriesMap) (c : ChapterInput)
    (names : List String) (fb : Bool) (v : String) (info : ResolvedChapterInfo)
    (hex : findReleasesForChapter m c.chapterVolume c.chapterNumber
      c.language names = none)
    (hfbtrue : fb = true) (htr : strTruthy c.chapterNumber = true)
    (hfb : getChapterInfoByChapterAndGroups m c.chapterNumber names
      c.language = some (v, info)) :
    lookupChapterRelease m c names fb =
      some { release := info, volume := some v, usedFallback := true
             title := none, matchedGroupName := none } := by
  unfold lookupChapterRelease
  rw [hex, if_pos ⟨by simp [hfbtrue], by simp [htr]⟩, hfb]

theorem updatedRelease_preserves (rel : ChapterRelease)
    (tr : Option TitleFromReleaseResult) :
    (updatedRelease rel tr).usedFallback = rel.usedFallback ∧
      (updatedRelease rel tr).volume = rel.volume ∧
      (updatedRelease rel tr).release = rel.release := by
  cases tr <;> simp [updatedRelease]

theorem calc_fst_volume (m : SeriesMap) (c : ChapterInput)
    (rel : ChapterRelease) (scan : List ScanGroup) (names : List String)
    (ng : Bool) :
    ((calculateChangesFromRelease m c rel scan names ng).1).volume =
      determineVolumeChange c.chapterVolume rel.volume := rfl

theorem calc_snd_eq (m : SeriesMap) (c : ChapterInput)
    (rel : ChapterRelease) (scan : List ScanGroup) (names : List String)
    (ng : Bool) :
    (calculateChangesFromRelease m c rel scan names ng).2 =
      updatedRelease rel (resolveTitleFromRelease rel.release
        (finalGroupNamesOf scan c
          (preliminaryAdditionalGroups m c rel scan names ng) names) ng) := rfl

theorem normVolume_some (v : String) :
    normVolume (some v) = if v = "" then none else some v := by
  unfold normVolume
  by_cases hv : v = ""
  · subst hv
    simp
  · rw [if_neg (by simpa using hv), if_neg hv]

theorem determineVolumeChange_stages (cv : Option String) (v : String)
    (h : v ≠ volStr cv) :
    determineVolumeChange cv (some v) =
      some (if v = "" then none else some v) := by
  unfold determineVolumeChange
  rw [normVolume_some]
  rw [if_pos ?_]
  by_cases hv : v = ""
  · subst hv
    rw [if_pos rfl]
    cases cv with
    | none => exact absurd rfl h
    | some s => simp
  · rw [if_neg hv]
    cases cv with
    | none => simp
    | some s =>
        simp only [volStr, Option.getD_some] at h
        simpa using fun hx => h (by rw [hx])

theorem VM_mem_chapterWarningsOf (cv : Option String)
    (rr : TitleResolutionResult) (w : Warning)
    (hw : w ∈ chapterWarningsOf cv rr)
    (hr : w.reason = WarningReason.volumeMismatch) :
    rr.usedFallback = true ∧ rr.fallbackVolume ≠ none := by
  unfold chapterWarningsOf at hw
  rw [List.mem_append] at hw
  cases hw with
  | inl hw =>
      by_cases hc : rr.usedFallback ∧ rr.fallbackVolume ≠ none
      · exact ⟨by simpa using hc.1, hc.2⟩
      · rw [if_neg hc] at hw
        simp at hw
  | inr hw =>
      by_cases hc : strTruthy rr.matchedGroupName ∧
          (recKeys rr.chapterInfo.groupTitles).length > 1
      · rw [if_pos hc] at hw
        simp at hw
        rw [hw] at hr
        simp at hr

      · rw [if_neg hc] at hw
        simp at hw

theorem VM_in_chapterWarningsOf (cv : Option String)
    (rr : TitleResolutionResult)
    (huf : rr.usedFallback = true) (hfv : rr.fallbackVolume ≠ none) :
    ({ reason := WarningReason.volumeMismatch
       note := volumeMismatchNote cv rr.fallbackVolume } : Warning) ∈
      chapterWarningsOf cv rr := by
  unfold chapterWarningsOf
  rw [List.mem_append]
  left
  rw [if_pos ⟨by simp [huf], hfv⟩]
  simp

theorem processChapter_eq_finish (m : SeriesMap) (scan : List ScanGroup)
    (opts : ApplyChangesOptions) (c : ChapterInput) (rel : ChapterRelease)
    (h1 : ¬(c.groupIds.isEmpty ∧ ¬opts.isNoGroupChapter c))
    (h2 : ¬((c.groupIds.filterMap (groupIdToName scan)).isEmpty ∧
      ¬opts.isNoGroupChapter c))
    (hrel : lookupChapterRelease m c
      (c.groupIds.filterMap (groupIdToName scan))
      opts.useFallbackMatching = some rel) :
    processChapter m scan opts c =
      finishChapter m scan c (opts.isNoGroupChapter c)
        (c.groupIds.filterMap (groupIdToName scan)) rel := by
  unfold processChapter
  rw [if_neg h1, if_neg h2, hrel]

theorem processChapter_changes_some (m : SeriesMap) (scan : List ScanGroup)
    (opts : ApplyChangesOptions) (c : ChapterInput) (chg : ChapterChanges)
    (h : (processChapter m scan opts c).changes = some chg) :
    ∃ rel,
      ¬(c.groupIds.isEmpty ∧ ¬opts.isNoGroupChapter c) ∧
      ¬((c.groupIds.filterMap (groupIdToName scan)).isEmpty ∧
        ¬opts.isNoGroupChapter c) ∧
      lookupChapterRelease m c (c.groupIds.filterMap (groupIdToName scan))
        opts.useFallbackMatching = some rel := by
  unfold processChapter at h
  by_cases e1 : (c.groupIds.isEmpty ∧ ¬opts.isNoGroupChapter c)
  · rw [if_pos e1] at h
    simp at h
  · rw [if_neg e1] at h
    by_cases e2 : ((c.groupIds.filterMap (groupIdToName scan)).isEmpty ∧
        ¬opts.isNoGroupChapter c)
    · rw [if_pos e2] at h
      simp at h
    · rw [if_neg e2] at h
      cases hrel : lookupChapterRelease m c
          (c.groupIds.filterMap (groupIdToName scan))
          opts.useFallbackMatching with
      | none => rw [hrel] at h; simp at h
      | some rel => exact ⟨rel, e1, e2, rfl⟩

theorem finishChapter_changes_eq (m : SeriesMap) (scan : List ScanGroup)
    (c : ChapterInput) (ng : Bool) (names : List String)
    (rel : ChapterRelease) :
    (finishChapter m scan c ng names rel).changes =
      some (calculateChangesFromRelease m c rel scan names ng).1 := rfl

theorem finishChapter_warnings_eq (m : SeriesMap) (scan : List ScanGroup)
    (c : ChapterInput) (ng : Bool) (names : List String)
    (rel : ChapterRelease) :
    (finishChapter m scan c ng names rel).warnings =
      chapterWarningsOf c.chapterVolume
        (mkResolutionResult
          (calculateChangesFromRelease m c rel scan names ng).2) := rfl

theorem finishChapter_status_eq (m : SeriesMap) (scan : List ScanGroup)
    (c : ChapterInput) (ng : Bool) (names : List String)
    (rel : ChapterRelease) :
    (finishChapter m scan c ng names rel).status =
      if (calculateChangesFromRelease m c rel scan names ng).1.volume ≠ none ∨
          (calculateChangesFromRelease m c rel scan names ng).1.title ≠ none ∨
          (calculateChangesFromRelease m c rel scan names ng).1.additionalGroupIds.length > 0
      then ChangeStatus.success else ChangeStatus.noChanges := rfl

/-- When the lookup used the fallback, a volume change is necessarily
staged: the implied volume provably differs from the input volume. -/
theorem fallback_stages_volume (m : SeriesMap) (scan : List ScanGroup)
    (opts : ApplyChangesOptions) (c : ChapterInput) (rel : ChapterRelease)
    (hnd : nodupKeys m)
    (hrel : lookupChapterRelease m c
      (c.groupIds.filterMap (groupIdToName scan))
      opts.useFallbackMatching = some rel)
    (huf : rel.usedFallback = true) :
    ∃ v, rel.volume = some v ∧ v ≠ volStr c.chapterVolume ∧
      (calculateChangesFromRelease m c rel scan
        (c.groupIds.filterMap (groupIdToName scan))
        (opts.isNoGroupChapter c)).1.volume =
        some (if v = "" then none else some v) := by
  obtain ⟨hexact, _, _, v, info, hfb, hvol, _⟩ :=
    lookup_fallback_inv m c (c.groupIds.filterMap (groupIdToName scan))
      opts.useFallbackMatching rel hrel huf
  have hne := exact_none_fallback_ne m c.chapterVolume c.chapterNumber
    c.language (c.groupIds.filterMap (groupIdToName scan)) v info hnd hexact hfb
  refine ⟨v, hvol, hne, ?_⟩
  rw [calc_fst_volume, hvol]
  exact determineVolumeChange_stages c.chapterVolume v hne

/-! ## Claim C1 -/

/-- C1 (amended).  Once a release is matched (exactly or via fallback) for a
chapter that passed the group preconditions, `applyChangesFromDump` never
returns `FAILED` for it: the result is `SUCCESS` or `NO_CHANGES` even when
title resolution finds neither a matching group title nor an ungrouped
title.  `FAILED` with `NO_CHAPTER_INFO` arises only when no release is
matched at all. -/
theorem c1_release_match_never_failed (m : SeriesMap) (scan : List ScanGroup)
    (opts : ApplyChangesOptions) (chapters : List ChapterInput) (i : Nat)
    (c : ChapterInput) (rel : ChapterRelease)
    (hc : chapters[i]? = some c)
    (h1 : ¬(c.groupIds.isEmpty ∧ ¬opts.isNoGroupChapter c))
    (h2 : ¬((c.groupIds.filterMap (groupIdToName scan)).isEmpty ∧
      ¬opts.isNoGroupChapter c))
    (hrel : lookupChapterRelease m c
      (c.groupIds.filterMap (groupIdToName scan))
      opts.useFallbackMatching = some rel) :
    ∃ r, (applyChangesFromDump m chapters scan opts).results[i]? = some r ∧
      (r.status = ChangeStatus.success ∨ r.status = ChangeStatus.noChanges) ∧
      r.status ≠ ChangeStatus.failed := by
  have hres : (applyChangesFromDump m chapters scan opts).results[i]? =
      some (processChapter m scan opts c) := by
    unfold applyChangesFromDump
    simp [List.getElem?_map, hc]
  refine ⟨processChapter m scan opts c, hres, ?_, ?_⟩
  · rw [processChapter_eq_finish m scan opts c rel h1 h2 hrel,
      finishChapter_status_eq]
    by_cases hch : ((calculateChangesFromRelease m c rel scan
        (c.groupIds.filterMap (groupIdToName scan))
        (opts.isNoGroupChapter c)).1.volume ≠ none ∨
      (calculateChangesFromRelease m c rel scan
        (c.groupIds.filterMap (groupIdToName scan))
        (opts.isNoGroupChapter c)).1.title ≠ none ∨
      (calculateChangesFromRelease m c rel scan
        (c.groupIds.filterMap (groupIdToName scan))
        (opts.isNoGroupChapter c)).1.additionalGroupIds.length > 0)
    · left
      rw [if_pos hch]
    · right
      rw [if_neg hch]
  · rw [processChapter_eq_finish m scan opts c rel h1 h2 hrel,
      finishChapter_status_eq]
    by_cases hch : ((calculateChangesFromRelease m c rel scan
        (c.groupIds.filterMap (groupIdToName scan))
        (opts.isNoGroupChapter c)).1.volume ≠ none ∨
      (calculateChangesFromRelease m c rel scan
        (c.groupIds.filterMap (groupIdToName scan))
        (opts.isNoGroupChapter c)).1.title ≠ none ∨
      (calculateChangesFromRelease m c rel scan
        (c.groupIds.filterMap (groupIdToName scan))
        (opts.isNoGroupChapter c)).1.additionalGroupIds.length > 0)
    · rw [if_pos hch]
      simp
    · rw [if_neg hch]
      simp

/-- Grouped release row used for the C1 scenario: the release exists at the
queried key but carries a group, so a no-group chapter resolves no title
from it. -/
def rowG : ChapterInfo :=
  { volume := "1", chapter := "5", title := "T",
    groups := [{ primaryName := "G", altNames := [] }], language := "en" }

/-- Series map holding only `rowG`. -/
def mapG : SeriesMap := [(("1", "5"), [rowG])]

/-- A `[no group]` chapter pointing at `rowG`'s key, with no title. -/
def noGroupChapter : ChapterInput :=
  { chapterVolume := some "1", chapterNumber := some "5"
    originalFolderPath := some "x/[no group]", groupIds := []
    currentTitle := none, language := "en" }

/-- Options marking every chapter as `[no group]`, fallback enabled. -/
def optsNoGroupAll : ApplyChangesOptions :=
  { useFallbackMatching := true, isNoGroupChapter := fun _ => true }

/-- The fallback-free release record matched for `noGroupChapter`. -/
def relG : ChapterRelease :=
  { release := buildResolved rowG, volume := some "1", usedFallback := false
    title := none, matchedGroupName := none }

/-- Counterexample to C1 as stated: for `noGroupChapter` a release **is**
matched (the lookup succeeds), title resolution finds neither a group title
nor an ungrouped title (it returns `null`), yet the chapter's result is
`NO_CHANGES` — not `FAILED` with `NO_CHAPTER_INFO`. -/
theorem c1_counterexample :
    lookupChapterRelease mapG noGroupChapter [] true = some relG ∧
      resolveTitleFromRelease (buildResolved rowG) [] true = none ∧
      (processChapter mapG [] optsNoGroupAll noGroupChapter).status =
        ChangeStatus.noChanges ∧
      (processChapter mapG [] optsNoGroupAll noGroupChapter).status ≠
        ChangeStatus.failed :=
  ⟨rfl, rfl, rfl, by decide⟩

/-- Witness for C1: the amended theorem applied to the one-chapter batch
`[noGroupChapter]`. -/
theorem c1_release_match_never_failed_witness :
    ∃ r, (applyChangesFromDump mapG [noGroupChapter] []
        optsNoGroupAll).results[0]? = some r ∧
      (r.status = ChangeStatus.success ∨ r.status = ChangeStatus.noChanges) ∧
      r.status ≠ ChangeStatus.failed :=
  c1_release_match_never_failed mapG [] optsNoGroupAll [noGroupChapter] 0
    noGroupChapter relG rfl (by simp [optsNoGroupAll])
    (by simp [optsNoGroupAll]) rfl

/-! ## Claim C2 -/

/-- C2 (amended).  Re-running the change engine on a fixed point — a chapter
whose volume, title and group ids already equal what a run would produce,
i.e. a run staging no change — yields `NO_CHANGES`, and every warning still
emitted is a `PARTIAL_GROUP_MATCH` warning; the warning list is **not**
necessarily empty, because that warning fires whenever the matched release
lists more than one group, changes or not. -/
theorem c2_fixed_point_no_changes (m : SeriesMap) (scan : List ScanGroup)
    (opts : ApplyChangesOptions) (c : ChapterInput) (hnd : nodupKeys m)
    (hfix : (processChapter m scan opts c).changes =
      some { volume := none, title := none, additionalGroupIds := [] }) :
    (processChapter m scan opts c).status = ChangeStatus.noChanges ∧
      ∀ w ∈ (processChapter m scan opts c).warnings,
        w.reason = WarningReason.partialGroupMatch := by
  obtain ⟨rel, h1, h2, hrel⟩ := processChapter_changes_some m scan opts c _ hfix
  have heq := processChapter_eq_finish m scan opts c rel h1 h2 hrel
  rw [heq] at hfix ⊢
  rw [finishChapter_changes_eq] at hfix
  have hcalc := Option.some.inj hfix
  constructor
  · rw [finishChapter_status_eq, if_neg ?_]
    intro hch
    rcases hch with hv | ht | ha
    · rw [hcalc] at hv
      simp at hv
    · rw [hcalc] at ht
      simp at ht
    · rw [hcalc] at ha
      simp at ha
  · intro w hw
    rw [finishChapter_warnings_eq] at hw
    by_cases hVM : (mkResolutionResult (calculateChangesFromRelease m c rel scan
        (c.groupIds.filterMap (groupIdToName scan))
        (opts.isNoGroupChapter c)).2).usedFallback = true
    · exfalso
      have huf : rel.usedFallback = true := by
        have hmk : (mkResolutionResult (calculateChangesFromRelease m c rel scan
            (c.groupIds.filterMap (groupIdToName scan))
            (opts.isNoGroupChapter c)).2).usedFallback =
            (calculateChangesFromRelease m c rel scan
              (c.groupIds.filterMap (groupIdToName scan))
              (opts.isNoGroupChapter c)).2.usedFallback := rfl
        rw [hmk, calc_snd_eq] at hVM
        rw [(updatedRelease_preserves rel _).1] at hVM
        exact hVM
      obtain ⟨v, hvol, hne, hstage⟩ := fallback_stages_volume m scan opts c rel
        hnd hrel huf
      rw [hcalc] at hstage
      simp at hstage
    · unfold chapterWarningsOf at hw
      rw [List.mem_append] at hw
      cases hw with
      | inl hw =>
          rw [if_neg ?_] at hw
          · simp at hw
          · intro hcond
            exact hVM (by simpa using hcond.1)
      | inr hw =>
          by_cases hc2 : strTruthy (mkResolutionResult
              (calculateChangesFromRelease m c rel scan
                (c.groupIds.filterMap (groupIdToName scan))
                (opts.isNoGroupChapter c)).2).matchedGroupName ∧
              (recKeys (mkResolutionResult (calculateChangesFromRelease m c rel
                scan (c.groupIds.filterMap (groupIdToName scan))
                (opts.isNoGroupChapter c)).2).chapterInfo.groupTitles).length > 1
          · rw [if_pos hc2] at hw
            simp at hw
            rw [hw]
          · rw [if_neg hc2] at hw
            simp at hw

/-- The two-group release row used for the C2 scenario. -/
def rowAB : ChapterInfo :=
  { volume := "1", chapter := "5", title := "T",
    groups := [{ primaryName := "A", altNames := [] },
               { primaryName := "B", altNames := [] }], language := "en" }

/-- Series map holding only `rowAB`. -/
def mapAB : SeriesMap := [(("1", "5"), [rowAB])]

/-- Remote catalog resolving both groups of `rowAB`. -/
def scanAB : List ScanGroup :=
  [{ groupId := "g1", groupName := "A" }, { groupId := "g2", groupName := "B" }]

/-- Fallback-enabled options with no `[no group]` chapters. -/
def optsFallback : ApplyChangesOptions :=
  { useFallbackMatching := true, isNoGroupChapter := fun _ => false }

/-- A chapter already carrying `rowAB`'s exact volume, title and both group
ids: a fixed point of the change engine. -/
def fixedChapter : ChapterInput :=
  { chapterVolume := some "1", chapterNumber := some "5"
    originalFolderPath := none, groupIds := ["g1", "g2"]
    currentTitle := some "T", language := "en" }

/-- Counterexample to C2 as stated: on the fixed point `fixedChapter` the
run stages nothing and returns `NO_CHANGES`, but the warning list is not
empty — it retains a `PARTIAL_GROUP_MATCH` warning because the matched
release lists two groups. -/
theorem c2_counterexample :
    (processChapter mapAB scanAB optsFallback fixedChapter).changes =
        some { volume := none, title := none, additionalGroupIds := [] } ∧
      (processChapter mapAB scanAB optsFallback fixedChapter).status =
        ChangeStatus.noChanges ∧
      (processChapter mapAB scanAB optsFallback fixedChapter).warnings ≠ [] ∧
      (processChapter mapAB scanAB optsFallback fixedChapter).warnings.map
          (fun w => w.reason) = [WarningReason.partialGroupMatch] :=
  ⟨rfl, rfl, by decide, rfl⟩

/-- Witness for C2: the amended theorem applied to `fixedChapter`. -/
theorem c2_fixed_point_no_changes_witness :
    (processChapter mapAB scanAB optsFallback fixedChapter).status =
        ChangeStatus.noChanges ∧
      ∀ w ∈ (processChapter mapAB scanAB optsFallback fixedChapter).warnings,
        w.reason = WarningReason.partialGroupMatch :=
  c2_fixed_point_no_changes mapAB scanAB optsFallback fixedChapter
    (by decide) rfl

/-! ## Claim C3 -/

theorem some_ne_of_ne_volStr (cv : Option String) (v : String)
    (h : v ≠ volStr cv) : some v ≠ cv := by
  cases cv with
  | none => simp
  | some s =>
      simp only [volStr, Option.getD_some] at h
      simpa using h

theorem mkRR_usedFallback (rel' : ChapterRelease) :
    (mkResolutionResult rel').usedFallback = rel'.usedFallback := rfl

theorem mkRR_fallbackVolume (rel' : ChapterRelease) :
    (mkResolutionResult rel').fallbackVolume =
      if rel'.usedFallback then rel'.volume else none := rfl

theorem processChapter_fail1 (m : SeriesMap) (scan : List ScanGroup)
    (opts : ApplyChangesOptions) (c : ChapterInput)
    (e1 : (c.groupIds.isEmpty ∧ ¬opts.isNoGroupChapter c)) :
    processChapter m scan opts c =
      { status := ChangeStatus.failed, changes := none
        warnings := [{ reason := WarningReason.noGroups
                       note := "Unable to assign any of the required groups to the chapter" }]
        resolutionResult := none } := by
  unfold processChapter
  rw [if_pos e1]

theorem processChapter_fail2 (m : SeriesMap) (scan : List ScanGroup)
    (opts : ApplyChangesOptions) (c : ChapterInput)
    (e1 : ¬(c.groupIds.isEmpty ∧ ¬opts.isNoGroupChapter c))
    (e2 : ((c.groupIds.filterMap (groupIdToName scan)).isEmpty ∧
      ¬opts.isNoGroupChapter c)) :
    processChapter m scan opts c =
      { status := ChangeStatus.failed, changes := none
        warnings := [{ reason := WarningReason.noValidGroups
                       note := "No valid groups found for assigned group IDs" }]
        resolutionResult := none } := by
  unfold processChapter
  rw [if_neg e1, if_pos e2]

theorem processChapter_fail3 (m : SeriesMap) (scan : List ScanGroup)
    (opts : ApplyChangesOptions) (c : ChapterInput)
    (e1 : ¬(c.groupIds.isEmpty ∧ ¬opts.isNoGroupChapter c))
    (e2 : ¬((c.groupIds.filterMap (groupIdToName scan)).isEmpty ∧
      ¬opts.isNoGroupChapter c))
    (hrel : lookupChapterRelease m c
      (c.groupIds.filterMap (groupIdToName scan))
      opts.useFallbackMatching = none) :
    processChapter m scan opts c =
      { status := ChangeStatus.failed, changes := none
        warnings := [{ reason := WarningReason.noChapterInfo
                       note := "Chapter not found in chapter dump" }]
        resolutionResult := none } := by
  unfold processChapter
  rw [if_neg e1, if_neg e2, hrel]

/-- The claim's emission condition for `VOLUME_MISMATCH`: the chapter passed
the group preconditions, the exact match failed, fallback matching was
enabled and applicable, the by-chapter fallback found a release, and the
volume it implies differs from the chapter's input volume. -/
def fallbackVolumeDiffers (m : SeriesMap) (scan : List ScanGroup)
    (opts : ApplyChangesOptions) (c : ChapterInput) : Prop :=
  ¬(c.groupIds.isEmpty ∧ ¬opts.isNoGroupChapter c) ∧
  ¬((c.groupIds.filterMap (groupIdToName scan)).isEmpty ∧
    ¬opts.isNoGroupChapter c) ∧
  findReleasesForChapter m c.chapterVolume c.chapterNumber c.language
    (c.groupIds.filterMap (groupIdToName scan)) = none ∧
  opts.useFallbackMatching = true ∧
  strTruthy c.chapterNumber = true ∧
  ∃ v info,
    getChapterInfoByChapterAndGroups m c.chapterNumber
        (c.groupIds.filterMap (groupIdToName scan)) c.language =
      some (v, info) ∧
    some v ≠ c.chapterVolume

/-- C3.  A `VOLUME_MISMATCH` warning is emitted for a chapter iff the
fallback-by-chapter lookup was used and its implied volume differs from the
input volume (`fallbackVolumeDiffers`); and in that case `changes.volume` is
staged to the implied volume (normalised: an empty implied volume is staged
as `null`) and the warning's note contains both the displayed original and
new volumes, in the form `Changed volume from X to Y`. -/
theorem c3_volume_mismatch_iff (m : SeriesMap) (scan : List ScanGroup)
    (opts : ApplyChangesOptions) (c : ChapterInput) (hnd : nodupKeys m) :
    ((∃ w ∈ (processChapter m scan opts c).warnings,
        w.reason = WarningReason.volumeMismatch) ↔
      fallbackVolumeDiffers m scan opts c) ∧
    (∀ v info,
      ¬(c.groupIds.isEmpty ∧ ¬opts.isNoGroupChapter c) →
      ¬((c.groupIds.filterMap (groupIdToName scan)).isEmpty ∧
        ¬opts.isNoGroupChapter c) →
      findReleasesForChapter m c.chapterVolume c.chapterNumber c.language
        (c.groupIds.filterMap (groupIdToName scan)) = none →
      opts.useFallbackMatching = true →
      strTruthy c.chapterNumber = true →
      getChapterInfoByChapterAndGroups m c.chapterNumber
          (c.groupIds.filterMap (groupIdToName scan)) c.language =
        some (v, info) →
      ∃ chg, (processChapter m scan opts c).changes = some chg ∧
        chg.volume = some (if v = "" then none else some v) ∧
        ∃ w ∈ (processChapter m scan opts c).warnings,
          w.reason = WarningReason.volumeMismatch ∧
          w.note = "Changed volume from " ++
            displayOriginalVolume c.chapterVolume ++ " to " ++
            displayNewVolume (some v)) := by
  have hpart2 : ∀ v info,
      ¬(c.groupIds.isEmpty ∧ ¬opts.isNoGroupChapter c) →
      ¬((c.groupIds.filterMap (groupIdToName scan)).isEmpty ∧
        ¬opts.isNoGroupChapter c) →
      findReleasesForChapter m c.chapterVolume c.chapterNumber c.language
        (c.groupIds.filterMap (groupIdToName scan)) = none →
      opts.useFallbackMatching = true →
      strTruthy c.chapterNumber = true →
      getChapterInfoByChapterAndGroups m c.chapterNumber
          (c.groupIds.filterMap (groupIdToName scan)) c.language =
        some (v, info) →
      ∃ chg, (processChapter m scan opts c).changes = some chg ∧
        chg.volume = some (if v = "" then none else some v) ∧
        ∃ w ∈ (processChapter m scan opts c).warnings,
          w.reason = WarningReason.volumeMismatch ∧
          w.note = "Changed volume from " ++
            displayOriginalVolume c.chapterVolume ++ " to " ++
            displayNewVolume (some v) := by
    intro v info h1 h2 hexact hfbt htr hfb
    have hlook := lookup_fallback_eq m c
      (c.groupIds.filterMap (groupIdToName scan)) opts.useFallbackMatching
      v info hexact hfbt htr hfb
    have heq := processChapter_eq_finish m scan opts c _ h1 h2 hlook
    have hne := exact_none_fallback_ne m c.chapterVolume c.chapterNumber
      c.language (c.groupIds.filterMap (groupIdToName scan)) v info hnd
      hexact hfb
    refine ⟨_, by rw [heq, finishChapter_changes_eq], ?_, ?_⟩
    · rw [calc_fst_volume]
      exact determineVolumeChange_stages c.chapterVolume v hne
    · rw [heq, finishChapter_warnings_eq]
      have huf2 : (calculateChangesFromRelease m c
          { release := info, volume := some v, usedFallback := true
            title := none, matchedGroupName := none } scan
          (c.groupIds.filterMap (groupIdToName scan))
          (opts.isNoGroupChapter c)).2.usedFallback = true := by
        rw [calc_snd_eq, (updatedRelease_preserves _ _).1]
      have hvol2 : (calculateChangesFromRelease m c
          { release := info, volume := some v, usedFallback := true
            title := none, matchedGroupName := none } scan
          (c.groupIds.filterMap (groupIdToName scan))
          (opts.isNoGroupChapter c)).2.volume = some v := by
        rw [calc_snd_eq, (updatedRelease_preserves _ _).2.1]
      have hmkuf := mkRR_usedFallback ((calculateChangesFromRelease m c
          { release := info, volume := some v, usedFallback := true
            title := none, matchedGroupName := none } scan
          (c.groupIds.filterMap (groupIdToName scan))
          (opts.isNoGroupChapter c)).2)
      rw [huf2] at hmkuf
      have hmkfv := mkRR_fallbackVolume ((calculateChangesFromRelease m c
          { release := info, volume := some v, usedFallback := true
            title := none, matchedGroupName := none } scan
          (c.groupIds.filterMap (groupIdToName scan))
          (opts.isNoGroupChapter c)).2)
      rw [huf2, hvol2, if_pos rfl] at hmkfv
      refine ⟨_, VM_in_chapterWarningsOf c.chapterVolume _ hmkuf
        (by rw [hmkfv]; simp), rfl, ?_⟩
      rw [hmkfv]
      rfl
  refine ⟨⟨?_, ?_⟩, hpart2⟩
  · rintro ⟨w, hw, hr⟩
    by_cases e1 : (c.groupIds.isEmpty ∧ ¬opts.isNoGroupChapter c)
    · rw [processChapter_fail1 m scan opts c e1] at hw
      simp at hw
      rw [hw] at hr
      simp at hr
    · by_cases e2 : ((c.groupIds.filterMap (groupIdToName scan)).isEmpty ∧
          ¬opts.isNoGroupChapter c)
      · rw [processChapter_fail2 m scan opts c e1 e2] at hw
        simp at hw
        rw [hw] at hr
        simp at hr
      · cases hrel : lookupChapterRelease m c
            (c.groupIds.filterMap (groupIdToName scan))
            opts.useFallbackMatching with
        | none =>
            rw [processChapter_fail3 m scan opts c e1 e2 hrel] at hw
            simp at hw
            rw [hw] at hr
            simp at hr
        | some rel =>
            rw [processChapter_eq_finish m scan opts c rel e1 e2 hrel,
              finishChapter_warnings_eq] at hw
            obtain ⟨hmkuf, _⟩ := VM_mem_chapterWarningsOf c.chapterVolume _ w
              hw hr
            have huf : rel.usedFallback = true := by
              rw [mkRR_usedFallback, calc_snd_eq,
                (updatedRelease_preserves _ _).1] at hmkuf
              exact hmkuf
            obtain ⟨hexact, hfbt, htr, v, info, hfb, hvol, _⟩ :=
              lookup_fallback_inv m c
                (c.groupIds.filterMap (groupIdToName scan))
                opts.useFallbackMatching rel hrel huf
            have hne := exact_none_fallback_ne m c.chapterVolume
              c.chapterNumber c.language
              (c.groupIds.filterMap (groupIdToName scan)) v info hnd hexact hfb
            exact ⟨e1, e2, hexact, hfbt, htr, v, info, hfb,
              some_ne_of_ne_volStr c.chapterVolume v hne⟩
  · rintro ⟨h1, h2, hexact, hfbt, htr, v, info, hfb, hvne⟩
    obtain ⟨chg, _, _, w, hw, hr, _⟩ := hpart2 v info h1 h2 hexact hfbt htr hfb
    exact ⟨w, hw, hr⟩

/-- Single-group release row for the C3 scenario (spec section 8's example:
volume 1, chapter 5, title Hello, group A). -/
def rowHello : ChapterInfo :=
  { volume := "1", chapter := "5", title := "Hello",
    groups := [{ primaryName := "A", altNames := [] }], language := "en" }

/-- Series map holding only `rowHello`. -/
def mapHello : SeriesMap := [(("1", "5"), [rowHello])]

/-- Remote catalog resolving group A. -/
def scanA1 : List ScanGroup := [{ groupId := "g1", groupName := "A" }]

/-- A chapter carrying the wrong volume 2 for chapter 5. -/
def wrongVolChapter : ChapterInput :=
  { chapterVolume := some "2", chapterNumber := some "5"
    originalFolderPath := none, groupIds := ["g1"]
    currentTitle := none, language := "en" }

/-- Witness for C3: the staging half of the theorem applied to the spec's
own scenario — wrong volume 2 corrected to 1 with a `VOLUME_MISMATCH`
warning carrying both volumes. -/
theorem c3_volume_mismatch_iff_witness :
    ∃ chg, (processChapter mapHello scanA1 optsFallback
        wrongVolChapter).changes = some chg ∧
      chg.volume = some (if "1" = "" then none else some "1") ∧
      ∃ w ∈ (processChapter mapHello scanA1 optsFallback
          wrongVolChapter).warnings,
        w.reason = WarningReason.volumeMismatch ∧
        w.note = "Changed volume from " ++
          displayOriginalVolume wrongVolChapter.chapterVolume ++ " to " ++
          displayNewVolume (some "1") :=
  (c3_volume_mismatch_iff mapHello scanA1 optsFallback wrongVolChapter
      (by decide)).2 "1" (buildResolved rowHello) (by decide) (by decide)
    rfl rfl rfl rfl


/-! ## Upload orchestrator lemmas (claim C4) -/

theorem uploadRetry_succ (script : List UploadOutcome) :
    ∀ (attempt : Nat) (c : JobState),
      (uploadChapterWithRetry script attempt c).2.1 = true →
      (uploadChapterWithRetry script attempt c).1.status = JobStatus.completed ∧
        (uploadChapterWithRetry script attempt c).2.2.1 = false := by
  induction script with
  | nil => intro attempt c h; simp [uploadChapterWithRetry] at h
  | cons o rest ih =>
      intro attempt c h
      unfold uploadChapterWithRetry at h ⊢
      by_cases h1 : (uploadAttempt c o).status = JobStatus.completed
      · rw [if_pos h1] at h ⊢
        exact ⟨h1, rfl⟩
      · rw [if_neg h1] at h ⊢
        by_cases h2 : has403Error (uploadAttempt c o) = true
        · rw [if_pos h2] at h
          simp at h
        · rw [if_neg h2] at h ⊢
          by_cases h3 : (hasNetworkError (uploadAttempt c o) ∧ attempt ≤ 3)
          · rw [if_pos h3] at h ⊢
            exact ih (attempt + 1) (resetChapterForRetry (uploadAttempt c o)) h
          · rw [if_neg h3] at h
            simp at h

/-- Four consecutive network-classified failures exhaust the three retries:
the routine reports failure without asking for a stop, the job's error is
the recorded network error, and the event trace shows the three
reset-then-sleep cycles with the scheduled 2s/5s/10s delays. -/
theorem retry_network_exhausts (c : JobState)
    (h403 : c.pages.any (fun p => p.error == some ErrClass.err403) = false) :
    (uploadChapterWithRetry
        (List.replicate 4 (UploadOutcome.fail ErrClass.network)) 1 c).2.1 =
        false ∧
      (uploadChapterWithRetry
        (List.replicate 4 (UploadOutcome.fail ErrClass.network)) 1 c).2.2.1 =
        false ∧
      (uploadChapterWithRetry
        (List.replicate 4 (UploadOutcome.fail ErrClass.network)) 1 c).1.error =
        some ErrClass.network ∧
      hasNetworkError (uploadChapterWithRetry
        (List.replicate 4 (UploadOutcome.fail ErrClass.network)) 1 c).1 =
        true ∧
      (uploadChapterWithRetry
          (List.replicate 4 (UploadOutcome.fail ErrClass.network)) 1 c).2.2.2 =
        [UploadEv.attempt, UploadEv.resetForRetry, UploadEv.sleep 2000,
         UploadEv.attempt, UploadEv.resetForRetry, UploadEv.sleep 5000,
         UploadEv.attempt, UploadEv.resetForRetry, UploadEv.sleep 10000,
         UploadEv.attempt] := by
  have hrep : List.replicate 4 (UploadOutcome.fail ErrClass.network) =
      [UploadOutcome.fail ErrClass.network, UploadOutcome.fail ErrClass.network,
       UploadOutcome.fail ErrClass.network, UploadOutcome.fail ErrClass.network] :=
    rfl
  rw [hrep]
  simp [uploadChapterWithRetry, uploadAttempt, has403Error, hasNetworkError,
    resetChapterForRetry, resetPage, retryDelay, h403, List.any_map,
    Function.comp]

/-- Chapters that are already completed or whose upload succeeds are
consumed by the loop, each landing in the done-list with status
`COMPLETED`. -/
theorem uploadAllGo_prefix (pre : List (JobState × List UploadOutcome)) :
    ∀ (done : List JobState) (trs : List (List UploadEv))
      (rest : List (JobState × List UploadOutcome)),
      (∀ p ∈ pre, p.1.status = JobStatus.completed ∨
        (uploadChapterWithRetry p.2 1 p.1).2.1 = true) →
      ∃ donePre trsPre,
        uploadAllGo (pre ++ rest) done trs =
          uploadAllGo rest (done ++ donePre) (trs ++ trsPre) ∧
        donePre.length = pre.length ∧
        ∀ c ∈ donePre, c.status = JobStatus.completed := by
  induction pre with
  | nil =>
      intro done trs rest _
      exact ⟨[], [], by simp, rfl, by simp⟩
  | cons p pre ih =>
      intro done trs rest hpre
      obtain ⟨c, s⟩ := p
      have hhead := hpre (c, s) (by simp)
      by_cases hcs : c.status = JobStatus.completed
      · have hstep : uploadAllGo (((c, s) :: pre) ++ rest) done trs =
            uploadAllGo (pre ++ rest) (done ++ [c]) trs := by
          simp only [List.cons_append]
          conv_lhs => unfold uploadAllGo
          rw [if_pos hcs]
        obtain ⟨donePre, trsPre, heq, hlen, hall⟩ := ih (done ++ [c]) trs rest
          (fun q hq => hpre q (by simp [hq]))
        refine ⟨c :: donePre, trsPre, ?_, by simp [hlen], ?_⟩
        · rw [hstep, heq]
          simp
        · intro x hx
          rcases List.mem_cons.mp hx with rfl | hx
          · exact hcs
          · exact hall x hx
      · have hsucc : (uploadChapterWithRetry s 1 c).2.1 = true := by
          rcases hhead with h | h
          · exact absurd h hcs
          · exact h
        obtain ⟨hstat, hstop⟩ := uploadRetry_succ s 1 c hsucc
        rcases hU : uploadChapterWithRetry s 1 c with ⟨cc, succ, stop, evs⟩
        rw [hU] at hsucc hstop hstat
        simp only [] at hsucc hstop hstat
        have hstep : uploadAllGo (((c, s) :: pre) ++ rest) done trs =
            uploadAllGo (pre ++ rest) (done ++ [cc]) (trs ++ [evs]) := by
          simp only [List.cons_append]
          conv_lhs => unfold uploadAllGo
          rw [if_neg hcs, hU]
          simp [hstop, hsucc]
        obtain ⟨donePre, trsPre, heq, hlen, hall⟩ := ih (done ++ [cc])
          (trs ++ [evs]) rest (fun q hq => hpre q (by simp [hq]))
        refine ⟨cc :: donePre, evs :: trsPre, ?_, by simp [hlen], ?_⟩
        · rw [hstep, heq]
          simp
        · intro x hx
          rcases List.mem_cons.mp hx with rfl | hx
          · exact hstat
          · exact hall x hx

theorem zip_fst_snd {α β : Type} (l : List (α × β)) :
    (l.map Prod.fst).zip (l.map Prod.snd) = l := by
  induction l with
  | nil => rfl
  | cons a l ih => simp [ih]

/-- A 403-classified failure on one chapter stops the whole run and leaves
every later chapter untouched. -/
theorem uploadAll_403_stops (pre post : List (JobState × List UploadOutcome))
    (cj : JobState) (sj : List UploadOutcome) (st : UploaderStatus) (pr : ℚ)
    (er : Option String) (tok : String)
    (hst : st ≠ UploaderStatus.inProgress)
    (hpre : ∀ p ∈ pre, p.1.status = JobStatus.completed ∨
      (uploadChapterWithRetry p.2 1 p.1).2.1 = true)
    (hcj : cj.status ≠ JobStatus.completed)
    (hstop : (uploadChapterWithRetry sj 1 cj).2.2.1 = true)
    (hpost : ∀ p ∈ post, p.1.status = JobStatus.notStarted) :
    (uploadAll
        { chapters := (pre ++ (cj, sj) :: post).map Prod.fst, status := st
          progress := pr, error := er, authToken := some tok } none
        ((pre ++ (cj, sj) :: post).map Prod.snd)).1.status =
        UploaderStatus.stopped ∧
      (uploadAll
        { chapters := (pre ++ (cj, sj) :: post).map Prod.fst, status := st
          progress := pr, error := er, authToken := some tok } none
        ((pre ++ (cj, sj) :: post).map Prod.snd)).1.chapters.drop
          (pre.length + 1) = post.map Prod.fst ∧
      ∀ c ∈ (uploadAll
        { chapters := (pre ++ (cj, sj) :: post).map Prod.fst, status := st
          progress := pr, error := er, authToken := some tok } none
        ((pre ++ (cj, sj) :: post).map Prod.snd)).1.chapters.drop
          (pre.length + 1), c.status = JobStatus.notStarted := by
  have hall : uploadAll
      { chapters := (pre ++ (cj, sj) :: post).map Prod.fst, status := st
        progress := pr, error := er, authToken := some tok } none
      ((pre ++ (cj, sj) :: post).map Prod.snd) =
      (let r := uploadAllGo (pre ++ (cj, sj) :: post) [] []
       ({ chapters := r.chapters, status := r.status, error := r.error
          progress := r.progress, authToken := some tok }, r.traces)) := by
    unfold uploadAll
    rw [if_neg (by simpa using hst), if_neg (by simp), if_neg (by simp),
      if_neg (by simp)]
    rw [zip_fst_snd]
  obtain ⟨donePre, trsPre, heq, hlen, hcomp⟩ :=
    uploadAllGo_prefix pre [] [] ((cj, sj) :: post) hpre
  rcases hU : uploadChapterWithRetry sj 1 cj with ⟨cc, succ, stop, evs⟩
  rw [hU] at hstop
  simp only [] at hstop
  have hgo : uploadAllGo ((cj, sj) :: post) donePre trsPre =
      { chapters := donePre ++ [cc] ++ post.map Prod.fst
        status := UploaderStatus.stopped
        error := some "403 Forbidden: Access denied. Upload stopped."
        progress := 0, traces := trsPre ++ [evs] } := by
    conv_lhs => unfold uploadAllGo
    rw [if_neg hcj, hU]
    simp [hstop]
  have hfront : (donePre ++ [cc]).length = pre.length + 1 := by
    simp [hlen]
  rw [hall]
  simp only [heq, List.nil_append, hgo]
  refine ⟨trivial, ?_, ?_⟩
  · show ((donePre ++ [cc]) ++ post.map Prod.fst).drop (pre.length + 1) =
      post.map Prod.fst
    rw [← hfront]
    exact List.drop_left _ _
  · intro c hc
    have : ((donePre ++ [cc]) ++ post.map Prod.fst).drop (pre.length + 1) =
        post.map Prod.fst := by
      rw [← hfront]
      exact List.drop_left _ _
    rw [this] at hc
    obtain ⟨p, hp, rfl⟩ := List.mem_map.mp hc
    exact hpost p hp

/-- A chapter failing with network-classified errors through all three
retries pauses the run, with its error recorded, every previously completed
chapter still `COMPLETED`, and the documented retry trace. -/
theorem uploadAll_network_pauses (pre post : List (JobState × List UploadOutcome))
    (cj : JobState) (st : UploaderStatus) (pr : ℚ)
    (er : Option String) (tok : String)
    (hst : st ≠ UploaderStatus.inProgress)
    (hpre : ∀ p ∈ pre, p.1.status = JobStatus.completed ∨
      (uploadChapterWithRetry p.2 1 p.1).2.1 = true)
    (hcj : cj.status ≠ JobStatus.completed)
    (h403 : cj.pages.any (fun p => p.error == some ErrClass.err403) = false) :
    (uploadAll
        { chapters := (pre ++ (cj, List.replicate 4
            (UploadOutcome.fail ErrClass.network)) :: post).map Prod.fst
          status := st, progress := pr, error := er, authToken := some tok }
        none
        ((pre ++ (cj, List.replicate 4
            (UploadOutcome.fail ErrClass.network)) :: post).map
          Prod.snd)).1.status = UploaderStatus.paused ∧
      (uploadAll
        { chapters := (pre ++ (cj, List.replicate 4
            (UploadOutcome.fail ErrClass.network)) :: post).map Prod.fst
          status := st, progress := pr, error := er, authToken := some tok }
        none
        ((pre ++ (cj, List.replicate 4
            (UploadOutcome.fail ErrClass.network)) :: post).map
          Prod.snd)).1.error ≠ none ∧
      (∃ cf, (uploadAll
        { chapters := (pre ++ (cj, List.replicate 4
            (UploadOutcome.fail ErrClass.network)) :: post).map Prod.fst
          status := st, progress := pr, error := er, authToken := some tok }
        none
        ((pre ++ (cj, List.replicate 4
            (UploadOutcome.fail ErrClass.network)) :: post).map
          Prod.snd)).1.chapters[pre.length]? = some cf ∧
        cf.error = some ErrClass.network) ∧
      (∀ c ∈ (uploadAll
        { chapters := (pre ++ (cj, List.replicate 4
            (UploadOutcome.fail ErrClass.network)) :: post).map Prod.fst
          status := st, progress := pr, error := er, authToken := some tok }
        none
        ((pre ++ (cj, List.replicate 4
            (UploadOutcome.fail ErrClass.network)) :: post).map
          Prod.snd)).1.chapters.take pre.length,
        c.status = JobStatus.completed) ∧
      (uploadAll
        { chapters := (pre ++ (cj, List.replicate 4
            (UploadOutcome.fail ErrClass.network)) :: post).map Prod.fst
          status := st, progress := pr, error := er, authToken := some tok }
        none
        ((pre ++ (cj, List.replicate 4
            (UploadOutcome.fail ErrClass.network)) :: post).map
          Prod.snd)).2.getLast? =
        some [UploadEv.attempt, UploadEv.resetForRetry, UploadEv.sleep 2000,
          UploadEv.attempt, UploadEv.resetForRetry, UploadEv.sleep 5000,
          UploadEv.attempt, UploadEv.resetForRetry, UploadEv.sleep 10000,
          UploadEv.attempt] := by
  have hex := retry_network_exhausts cj h403
  have hall : uploadAll
      { chapters := (pre ++ (cj, List.replicate 4
          (UploadOutcome.fail ErrClass.network)) :: post).map Prod.fst
        status := st, progress := pr, error := er, authToken := some tok }
      none
      ((pre ++ (cj, List.replicate 4
          (UploadOutcome.fail ErrClass.network)) :: post).map Prod.snd) =
      (let r := uploadAllGo (pre ++ (cj, List.replicate 4
          (UploadOutcome.fail ErrClass.network)) :: post) [] []
       ({ chapters := r.chapters, status := r.status, error := r.error
          progress := r.progress, authToken := some tok }, r.traces)) := by
    unfold uploadAll
    rw [if_neg (by simpa using hst), if_neg (by simp), if_neg (by simp),
      if_neg (by simp)]
    rw [zip_fst_snd]
  obtain ⟨donePre, trsPre, heq, hlen, hcomp⟩ :=
    uploadAllGo_prefix pre [] []
      ((cj, List.replicate 4 (UploadOutcome.fail ErrClass.network)) :: post)
      hpre
  rcases hU : uploadChapterWithRetry
      (List.replicate 4 (UploadOutcome.fail ErrClass.network)) 1 cj with
    ⟨cc, succ, stop, evs⟩
  rw [hU] at hex
  simp only [] at hex
  obtain ⟨hsucc, hstop, herr, hnet, htrace⟩ := hex
  have hgo : uploadAllGo
      ((cj, List.replicate 4 (UploadOutcome.fail ErrClass.network)) :: post)
      donePre trsPre =
      { chapters := donePre ++ [cc] ++ post.map Prod.fst
        status := UploaderStatus.paused
        error := some "Network error: Upload failed after 3 retry attempts. Upload paused. Please check your connection and resume manually."
        progress := 0, traces := trsPre ++ [evs] } := by
    conv_lhs => unfold uploadAllGo
    rw [if_neg hcj, hU]
    simp [hstop, hsucc, hnet]
  rw [hall]
  simp only [heq, List.nil_append, hgo]
  refine ⟨trivial, by simp, ?_, ?_, ?_⟩
  · refine ⟨cc, ?_, herr⟩
    show ((donePre ++ [cc]) ++ post.map Prod.fst)[pre.length]? = some cc
    rw [List.append_assoc]
    rw [List.getElem?_append_right (by omega : donePre.length ≤ pre.length)]
    rw [hlen]
    simp
  · intro c hc
    have htake : ((donePre ++ [cc]) ++ post.map Prod.fst).take pre.length =
        donePre := by
      rw [List.append_assoc, ← hlen]
      exact List.take_left _ _
    rw [htake] at hc
    exact hcomp c hc
  · rw [htrace]
    exact List.getLast?_concat _


/-- Fresh page used by the concrete uploader runs. -/
def freshPage : PageState :=
  { status := JobStatus.notStarted, progress := 0, error := none
    associatedUploadSessionFileId := none }

/-- Fresh chapter job used by the concrete uploader runs. -/
def freshJob : JobState :=
  { status := JobStatus.notStarted, progress := 0, error := none
    associatedUploadSessionId := none, pages := [freshPage] }

/-- C4.  Upload orchestrator run: (a) if a chapter's retry routine asks for a
stop — which a 403-classified failure does — `uploadAll` transitions the run
to `STOPPED` and every not-yet-attempted chapter keeps status `NOT_STARTED`;
(b) if a chapter fails with network-classified errors through all three
retries, `uploadAll` transitions the run to `PAUSED`, that chapter's error is
populated with the network error, every previously completed chapter still
has status `COMPLETED`, and the chapter's event trace shows the three
reset-then-sleep retry cycles with delays 2000 ms, 5000 ms and 10000 ms. -/
theorem c4_uploader_403_stops_network_pauses :
    (∀ (pre post : List (JobState × List UploadOutcome)) (cj : JobState)
      (sj : List UploadOutcome) (st : UploaderStatus) (pr : ℚ)
      (er : Option String) (tok : String),
      st ≠ UploaderStatus.inProgress →
      (∀ p ∈ pre, p.1.status = JobStatus.completed ∨
        (uploadChapterWithRetry p.2 1 p.1).2.1 = true) →
      cj.status ≠ JobStatus.completed →
      (uploadChapterWithRetry sj 1 cj).2.2.1 = true →
      (∀ p ∈ post, p.1.status = JobStatus.notStarted) →
      (uploadAll
          { chapters := (pre ++ (cj, sj) :: post).map Prod.fst, status := st
            progress := pr, error := er, authToken := some tok } none
          ((pre ++ (cj, sj) :: post).map Prod.snd)).1.status =
          UploaderStatus.stopped ∧
        (uploadAll
          { chapters := (pre ++ (cj, sj) :: post).map Prod.fst, status := st
            progress := pr, error := er, authToken := some tok } none
          ((pre ++ (cj, sj) :: post).map Prod.snd)).1.chapters.drop
            (pre.length + 1) = post.map Prod.fst ∧
        ∀ c ∈ (uploadAll
          { chapters := (pre ++ (cj, sj) :: post).map Prod.fst, status := st
            progress := pr, error := er, authToken := some tok } none
          ((pre ++ (cj, sj) :: post).map Prod.snd)).1.chapters.drop
            (pre.length + 1), c.status = JobStatus.notStarted) ∧
    (∀ (pre post : List (JobState × List UploadOutcome)) (cj : JobState)
      (st : UploaderStatus) (pr : ℚ) (er : Option String) (tok : String),
      st ≠ UploaderStatus.inProgress →
      (∀ p ∈ pre, p.1.status = JobStatus.completed ∨
        (uploadChapterWithRetry p.2 1 p.1).2.1 = true) →
      cj.status ≠ JobStatus.completed →
      cj.pages.any (fun p => p.error == some ErrClass.err403) = false →
      (uploadAll
          { chapters := (pre ++ (cj, List.replicate 4
              (UploadOutcome.fail ErrClass.network)) :: post).map Prod.fst
            status := st, progress := pr, error := er, authToken := some tok }
          none
          ((pre ++ (cj, List.replicate 4
              (UploadOutcome.fail ErrClass.network)) :: post).map
            Prod.snd)).1.status = UploaderStatus.paused ∧
        (uploadAll
          { chapters := (pre ++ (cj, List.replicate 4
              (UploadOutcome.fail ErrClass.network)) :: post).map Prod.fst
            status := st, progress := pr, error := er, authToken := some tok }
          none
          ((pre ++ (cj, List.replicate 4
              (UploadOutcome.fail ErrClass.network)) :: post).map
            Prod.snd)).1.error ≠ none ∧
        (∃ cf, (uploadAll
          { chapters := (pre ++ (cj, List.replicate 4
              (UploadOutcome.fail ErrClass.network)) :: post).map Prod.fst
            status := st, progress := pr, error := er, authToken := some tok }
          none
          ((pre ++ (cj, List.replicate 4
              (UploadOutcome.fail ErrClass.network)) :: post).map
            Prod.snd)).1.chapters[pre.length]? = some cf ∧
          cf.error = some ErrClass.network) ∧
        (∀ c ∈ (uploadAll
          { chapters := (pre ++ (cj, List.replicate 4
              (UploadOutcome.fail ErrClass.network)) :: post).map Prod.fst
            status := st, progress := pr, error := er, authToken := some tok }
          none
          ((pre ++ (cj, List.replicate 4
              (UploadOutcome.fail ErrClass.network)) :: post).map
            Prod.snd)).1.chapters.take pre.length,
          c.status = JobStatus.completed) ∧
        (uploadAll
          { chapters := (pre ++ (cj, List.replicate 4
              (UploadOutcome.fail ErrClass.network)) :: post).map Prod.fst
            status := st, progress := pr, error := er, authToken := some tok }
          none
          ((pre ++ (cj, List.replicate 4
              (UploadOutcome.fail ErrClass.network)) :: post).map
            Prod.snd)).2.getLast? =
          some [UploadEv.attempt, UploadEv.resetForRetry, UploadEv.sleep 2000,
            UploadEv.attempt, UploadEv.resetForRetry, UploadEv.sleep 5000,
            UploadEv.attempt, UploadEv.resetForRetry, UploadEv.sleep 10000,
            UploadEv.attempt]) :=
  ⟨fun pre post cj sj st pr er tok hst hpre hcj hstop hpost =>
    uploadAll_403_stops pre post cj sj st pr er tok hst hpre hcj hstop hpost,
   fun pre post cj st pr er tok hst hpre hcj h403 =>
    uploadAll_network_pauses pre post cj st pr er tok hst hpre hcj h403⟩

/-- Concrete run of the C4 theorem on a one-chapter uploader: a scripted 403
failure stops the run; four scripted network failures pause it. -/
theorem c4_uploader_403_stops_network_pauses_witness :
    (uploadAll
        { chapters := [freshJob], status := UploaderStatus.notStarted
          progress := 0, error := none, authToken := some "t" } none
        [[UploadOutcome.fail ErrClass.err403]]).1.status =
        UploaderStatus.stopped ∧
      (uploadAll
        { chapters := [freshJob], status := UploaderStatus.notStarted
          progress := 0, error := none, authToken := some "t" } none
        [List.replicate 4 (UploadOutcome.fail ErrClass.network)]).1.status =
        UploaderStatus.paused := by
  constructor
  · exact (c4_uploader_403_stops_network_pauses.1 [] [] freshJob
      [UploadOutcome.fail ErrClass.err403] UploaderStatus.notStarted 0 none "t"
      (by decide) (by simp) (by decide) (by rfl) (by simp)).1
  · exact (c4_uploader_403_stops_network_pauses.2 [] [] freshJob
      UploaderStatus.notStarted 0 none "t"
      (by decide) (by simp) (by decide) (by rfl)).1

end WeebUploader
